import Mathlib

/-! # kiwi graphics layer: a shallow embedding of `graphics.cpp`

The device (OpenGL) is external to the program.  Every function that talks to
the device is embedded as a pure function that

* receives the values the device hands back (generated names, link status,
  error flag, active uniforms) as explicit arguments, and
* returns the new value of the object it mutates together with the ordered
  list of device commands it issued (`gl_call`).

Machine integers are `Nat`/`Int` with explicit reduction modulo `2^32` where the
source can wrap.  `assert` is embedded as the fault `assertion_failed`; an index
outside a static table is the fault `out_of_bounds`.
-/

namespace kiwi

/-! ## Device constants -/

/-- Modelled from the spec: the device header (`glad/glad.h`) that defines the
`GLenum` type and the `GL_*` enumerants is not among the sources; the values
below are the ones of the OpenGL 3.3 core registry. -/
abbrev GLenum := Nat

def GL_NO_ERROR : GLenum := 0
def GL_OUT_OF_MEMORY : GLenum := 0x0505
def GL_FALSE : Nat := 0
def GL_TRUE : Nat := 1
def GL_UNSIGNED_BYTE : GLenum := 0x1401
def GL_FLOAT : GLenum := 0x1406
def GL_RED : GLenum := 0x1903
def GL_RGB : GLenum := 0x1907
def GL_RGBA : GLenum := 0x1908
def GL_RG : GLenum := 0x8227
def GL_R8 : GLenum := 0x8229
def GL_RG8 : GLenum := 0x822B
def GL_RGB8 : GLenum := 0x8051
def GL_RGBA8 : GLenum := 0x8058
def GL_TEXTURE_2D : GLenum := 0x0DE1
def GL_ARRAY_BUFFER : GLenum := 0x8892
def GL_STATIC_DRAW : GLenum := 0x88E4
def GL_FRAGMENT_SHADER : GLenum := 0x8B30
def GL_VERTEX_SHADER : GLenum := 0x8B31
def GL_FLOAT_VEC2 : GLenum := 0x8B50
def GL_FLOAT_VEC3 : GLenum := 0x8B51
def GL_FLOAT_VEC4 : GLenum := 0x8B52
def GL_FLOAT_MAT4 : GLenum := 0x8B5C
def GL_SAMPLER_2D : GLenum := 0x8B5E
def GL_LINK_STATUS : GLenum := 0x8B82
def GL_ACTIVE_UNIFORMS : GLenum := 0x8B86
def GL_NONE : GLenum := 0
def GL_ZERO : GLenum := 0
def GL_ONE : GLenum := 1
def GL_NEVER : GLenum := 0x0200
def GL_LESS : GLenum := 0x0201
def GL_EQUAL : GLenum := 0x0202
def GL_LEQUAL : GLenum := 0x0203
def GL_GREATER : GLenum := 0x0204
def GL_NOTEQUAL : GLenum := 0x0205
def GL_GEQUAL : GLenum := 0x0206
def GL_ALWAYS : GLenum := 0x0207
def GL_SRC_COLOR : GLenum := 0x0300
def GL_ONE_MINUS_SRC_COLOR : GLenum := 0x0301
def GL_SRC_ALPHA : GLenum := 0x0302
def GL_ONE_MINUS_SRC_ALPHA : GLenum := 0x0303
def GL_DST_ALPHA : GLenum := 0x0304
def GL_ONE_MINUS_DST_ALPHA : GLenum := 0x0305
def GL_DST_COLOR : GLenum := 0x0306
def GL_ONE_MINUS_DST_COLOR : GLenum := 0x0307
def GL_SRC_ALPHA_SATURATE : GLenum := 0x0308
def GL_FRONT : GLenum := 0x0404
def GL_BACK : GLenum := 0x0405
def GL_FRONT_AND_BACK : GLenum := 0x0408
def GL_CW : GLenum := 0x0900
def GL_CCW : GLenum := 0x0901
def GL_CULL_FACE : GLenum := 0x0B44
def GL_DEPTH_TEST : GLenum := 0x0B71
def GL_BLEND : GLenum := 0x0BE2
def GL_LINE : GLenum := 0x1B01
def GL_FILL : GLenum := 0x1B02
def GL_NEAREST : GLenum := 0x2600
def GL_LINEAR : GLenum := 0x2601
def GL_NEAREST_MIPMAP_NEAREST : GLenum := 0x2700
def GL_LINEAR_MIPMAP_NEAREST : GLenum := 0x2701
def GL_NEAREST_MIPMAP_LINEAR : GLenum := 0x2702
def GL_LINEAR_MIPMAP_LINEAR : GLenum := 0x2703
def GL_TEXTURE_MAG_FILTER : GLenum := 0x2800
def GL_TEXTURE_MIN_FILTER : GLenum := 0x2801
def GL_TEXTURE_WRAP_S : GLenum := 0x2802
def GL_TEXTURE_WRAP_T : GLenum := 0x2803
def GL_REPEAT : GLenum := 0x2901
def GL_CONSTANT_COLOR : GLenum := 0x8001
def GL_ONE_MINUS_CONSTANT_COLOR : GLenum := 0x8002
def GL_CONSTANT_ALPHA : GLenum := 0x8003
def GL_ONE_MINUS_CONSTANT_ALPHA : GLenum := 0x8004
def GL_FUNC_ADD : GLenum := 0x8006
def GL_MIN : GLenum := 0x8007
def GL_MAX : GLenum := 0x8008
def GL_FUNC_SUBTRACT : GLenum := 0x800A
def GL_FUNC_REVERSE_SUBTRACT : GLenum := 0x800B
def GL_CLAMP_TO_BORDER : GLenum := 0x812D
def GL_CLAMP_TO_EDGE : GLenum := 0x812F
def GL_MIRRORED_REPEAT : GLenum := 0x8370

/-- Abnormal termination of an embedded function. -/
inductive fault where
  | assertion_failed
  | out_of_bounds
  deriving DecidableEq, Repr

set_option maxHeartbeats 4000000 in
/-- Commands sent to the device and to the logging sink, in program order.
Object names are `GLuint`, locations and sizes are `GLint`; data pointers are
represented by the bytes they point to where the embedding needs them. -/
inductive gl_call where
  | glCreateShader (type : GLenum)
  | glShaderSource (shader : Nat) (source : List Nat)
  | glCompileShader (shader : Nat)
  | glCreateProgram
  | glAttachShader (program shader : Nat)
  | glLinkProgram (program : Nat)
  | glDetachShader (program shader : Nat)
  | glDeleteShader (shader : Nat)
  | glGetProgramiv (program : Nat) (pname : GLenum)
  | glGetProgramInfoLog (program : Nat) (size : Nat)
  | glDeleteProgram (program : Nat)
  | glUseProgram (program : Nat)
  | glGetActiveUniform (program : Nat) (index : Nat) (size : Nat)
  | glGetUniformLocation (program : Nat) (name : List Nat)
  | glUniform1i (location : Int) (v0 : Int)
  | glUniform3fv (location : Int) (count : Nat) (value : List Nat)
  | glUniform4fv (location : Int) (count : Nat) (value : List Nat)
  | glUniformMatrix4fv (location : Int) (count : Nat) (transpose : Nat) (value : List Nat)
  | glGetError
  | glGenTextures (n : Nat)
  | glBindTexture (target : GLenum) (texture : Nat)
  | glTexImage2D (target : GLenum) (level : Int) (internal_format : GLenum)
      (width height : Int) (border : Int) (format type : GLenum)
  | glGenerateMipmap (target : GLenum)
  | glDeleteTextures (n : Nat) (texture : Nat)
  | glGenSamplers (n : Nat)
  | glDeleteSamplers (n : Nat) (sampler : Nat)
  | glGenBuffers (n : Nat)
  | glBindBuffer (target : GLenum) (buffer : Nat)
  | glBufferData (target : GLenum) (size : Nat) (usage : GLenum)
  | glDeleteBuffers (n : Nat) (buffer : Nat)
  | glSamplerParameteri (sampler : Nat) (pname : GLenum) (param : GLenum)
  | glGenVertexArrays (n : Nat)
  | glBindVertexArray (array : Nat)
  | glDeleteVertexArrays (n : Nat) (array : Nat)
  | glEnable (cap : GLenum)
  | glDisable (cap : GLenum)
  | glBlendFuncSeparate (src_rgb dst_rgb src_alpha dst_alpha : GLenum)
  | glBlendEquationSeparate (mode_rgb mode_alpha : GLenum)
  | glDepthFunc (func : GLenum)
  | glDepthMask (flag : Nat)
  | glDepthRange (near far : Nat)
  | glCullFace (mode : GLenum)
  | glFrontFace (mode : GLenum)
  | glPolygonMode (face mode : GLenum)
  | glEnableVertexAttribArray (index : Nat)
  | glVertexAttribPointer (index : Nat) (size : Int) (type : GLenum) (normalized : Nat)
      (stride : Int) (pointer : Nat)
  | debug_info (args : List Int)
  | debug_warn
  | debug_error
  deriving DecidableEq, Repr

/-! ## `fnv1a32` -/

/-- The loop body of `fnv1a32`, over the bytes still to be read: `result` is a
`uint32_t`, each element of the list a `uint8_t`. -/
def fnv1a32_loop (result : Nat) : List Nat → Nat
  | [] => result
  | b :: rest => fnv1a32_loop (((result ^^^ (b % 256)) * 16777619) % 2 ^ 32) rest

/-- Embedding of `fnv1a32(data, size)`: hashes the first `size` bytes at `data`. -/
def fnv1a32 (data : List Nat) (size : Nat) : Nat :=
  fnv1a32_loop 2166136261 (data.take size)

/-! ## Uniform values

A `float` is represented by its 32-bit IEEE-754 pattern; `value_ptr` gives the
object representation (little endian, as on the x86 targets of the program),
which is all that `set_uniform` reads of a value. -/

structure vec3 where
  x : Nat
  y : Nat
  z : Nat
  deriving DecidableEq, Repr

structure vec4 where
  x : Nat
  y : Nat
  z : Nat
  w : Nat
  deriving DecidableEq, Repr

/-- Column-major 4x4 matrix: four `vec4` columns. -/
structure mat4 where
  c0 : vec4
  c1 : vec4
  c2 : vec4
  c3 : vec4
  deriving DecidableEq, Repr

/-- The four bytes of one `float`, given its bit pattern. -/
def float_bytes (bits : Nat) : List Nat :=
  [bits % 256, bits / 256 % 256, bits / 65536 % 256, bits / 16777216 % 256]

def vec3.value_ptr (v : vec3) : List Nat :=
  float_bytes v.x ++ float_bytes v.y ++ float_bytes v.z

def vec4.value_ptr (v : vec4) : List Nat :=
  float_bytes v.x ++ float_bytes v.y ++ float_bytes v.z ++ float_bytes v.w

def mat4.value_ptr (m : mat4) : List Nat :=
  m.c0.value_ptr ++ m.c1.value_ptr ++ m.c2.value_ptr ++ m.c3.value_ptr

/-- The bit patterns are those of 32-bit floats. -/
abbrev vec3.wf (v : vec3) : Prop := v.x < 2 ^ 32 ∧ v.y < 2 ^ 32 ∧ v.z < 2 ^ 32

/-! ## Shader program and renderer state -/

/-- Embedding of `shader_program_t::uniform_t`. -/
structure uniform_t where
  m_location : Int
  m_name_hash : Nat
  m_value_type : Nat
  m_value_hash : Nat
  deriving DecidableEq, Repr

/-- Embedding of `shader_program_t`. -/
structure shader_program_t where
  m_id : Nat := 0
  m_uniforms : List uniform_t := []
  deriving DecidableEq, Repr

def shader_program_t.valid (p : shader_program_t) : Bool := p.m_id != 0

/-- Embedding of `renderer_t`: `m_program` is the program the pointer refers
to (`none` for `nullptr`); writes through the pointer update it in place. -/
structure renderer_t where
  m_program : Option shader_program_t := none
  deriving DecidableEq, Repr

/-- The argument of the overloaded `renderer_t::set_uniform`. -/
inductive uniform_value where
  | v3 (value : vec3)
  | v4 (value : vec4)
  | m4 (value : mat4)
  deriving DecidableEq, Repr

/-- The type tag the overload asserts on the slot. -/
def uniform_value.gl_type : uniform_value → GLenum
  | .v3 _ => GL_FLOAT_VEC3
  | .v4 _ => GL_FLOAT_VEC4
  | .m4 _ => GL_FLOAT_MAT4

/-- The object representation `glm::value_ptr(value)` points to. -/
def uniform_value.value_ptr : uniform_value → List Nat
  | .v3 v => v.value_ptr
  | .v4 v => v.value_ptr
  | .m4 m => m.value_ptr

/-- The byte size `sizeof(glm::vec3)`, `sizeof(glm::vec4)`, `sizeof(glm::mat4)`. -/
def uniform_value.sizeof : uniform_value → Nat
  | .v3 _ => 12
  | .v4 _ => 16
  | .m4 _ => 64

/-- The upload command of the overload. -/
def uniform_value.upload (value : uniform_value) (location : Int) : gl_call :=
  match value with
  | .v3 v => .glUniform3fv location 1 v.value_ptr
  | .v4 v => .glUniform4fv location 1 v.value_ptr
  | .m4 m => .glUniformMatrix4fv location 1 GL_FALSE m.value_ptr

/-- The range-for loop of `renderer_t::set_uniform` (the three overloads differ
only in the asserted type, the hashed size and the upload command): scans the
slots in order, stops at the first one whose name hash matches. -/
def set_uniform_loop (name_hash : Nat) (value : uniform_value) :
    List uniform_t → Except fault (List uniform_t × List gl_call)
  | [] => .ok ([], [])
  | uniform :: rest =>
    if uniform.m_name_hash = name_hash then
      if uniform.m_value_type ≠ value.gl_type then
        .error .assertion_failed
      else
        let value_hash := fnv1a32 value.value_ptr value.sizeof
        if uniform.m_value_hash ≠ value_hash then
          .ok ({ uniform with m_value_hash := value_hash } :: rest,
               [value.upload uniform.m_location])
        else
          .ok (uniform :: rest, [])
    else
      match set_uniform_loop name_hash value rest with
      | .error e => .error e
      | .ok (rest', calls) => .ok (uniform :: rest', calls)

/-- Embedding of `renderer_t::set_uniform(name, value)`; `name` is the byte
content of the `string_view`. -/
def renderer_t.set_uniform (r : renderer_t) (name : List Nat) (value : uniform_value) :
    Except fault (renderer_t × List gl_call) :=
  match r.m_program with
  | none => .error .assertion_failed
  | some program =>
    let name_hash := fnv1a32 name name.length
    match set_uniform_loop name_hash value program.m_uniforms with
    | .error e => .error e
    | .ok (uniforms, calls) =>
      .ok ({ r with m_program := some { program with m_uniforms := uniforms } }, calls)

/-- Whether a device command uploads a vec3, vec4 or mat4 uniform value. -/
def gl_call.is_upload : gl_call → Bool
  | .glUniform3fv _ _ _ => true
  | .glUniform4fv _ _ _ => true
  | .glUniformMatrix4fv _ _ _ _ => true
  | _ => false

/-- Number of uniform value uploads in a command list. -/
def upload_count (calls : List gl_call) : Nat :=
  (calls.filter gl_call.is_upload).length

/-! ## Shader program: creation, introspection, destruction -/

/-- What the device reports for one active uniform: the characters
`glGetActiveUniform` wrote to the 128-byte buffer `uniform_name` (their number,
at most 127, is `uniform_name_length`), the type it stored in `uniform_type`, and
the value `glGetUniformLocation` returned for that name. -/
structure active_uniform where
  uniform_name : List Nat
  uniform_type : GLenum
  location : Int
  deriving DecidableEq, Repr

/-- The introspection loop of `shader_program_t::create`, over the active
uniforms still to be visited; `index`, `sampler_count` and `m_uniforms` are the
loop state.  Returns the final `m_uniforms` and the commands issued. -/
def shader_program_t.introspect (m_id : Nat) :
    List active_uniform → Nat → Int → List uniform_t → List uniform_t × List gl_call
  | [], _, _, m_uniforms => (m_uniforms, [])
  | u :: rest, index, sampler_count, m_uniforms =>
    let query : List gl_call :=
      [.glGetActiveUniform m_id index 128, .glGetUniformLocation m_id u.uniform_name]
    if u.uniform_type = GL_SAMPLER_2D then
      let r := shader_program_t.introspect m_id rest (index + 1) (sampler_count + 1) m_uniforms
      (r.1, query ++ [.debug_info [sampler_count], .glUniform1i u.location sampler_count] ++ r.2)
    else
      let uniform_name_hash := fnv1a32 u.uniform_name u.uniform_name.length
      let r := shader_program_t.introspect m_id rest (index + 1) sampler_count
        (m_uniforms ++ [⟨u.location, uniform_name_hash, u.uniform_type, 0⟩])
      (r.1, query ++ [.debug_info [u.location]] ++ r.2)

/-- Embedding of `shader_program_t::create`.  Device responses: the names
returned by `glCreateShader` (twice) and `glCreateProgram`, the link status, the
active uniforms, and the value of the final `glGetError`.  Returns the `bool`
result, the object afterwards and the commands issued. -/
def shader_program_t.create (p : shader_program_t)
    (vertex_source fragment_source : List Nat)
    (vertex_shader_id fragment_shader_id shader_program_id : Nat)
    (link_status : Nat) (uniforms : List active_uniform) (error : GLenum) :
    Bool × shader_program_t × List gl_call :=
  let build : List gl_call :=
    [.glCreateShader GL_VERTEX_SHADER,
     .glShaderSource vertex_shader_id vertex_source,
     .glCompileShader vertex_shader_id,
     .glCreateShader GL_FRAGMENT_SHADER,
     .glShaderSource fragment_shader_id fragment_source,
     .glCompileShader fragment_shader_id,
     .glCreateProgram,
     .glAttachShader shader_program_id vertex_shader_id,
     .glAttachShader shader_program_id fragment_shader_id,
     .glLinkProgram shader_program_id,
     .glDetachShader shader_program_id vertex_shader_id,
     .glDetachShader shader_program_id fragment_shader_id,
     .glDeleteShader vertex_shader_id,
     .glDeleteShader fragment_shader_id,
     .glGetProgramiv shader_program_id GL_LINK_STATUS]
  if link_status = GL_FALSE then
    (false, p, build ++ [.glGetProgramInfoLog shader_program_id 1024,
                         .glDeleteProgram shader_program_id,
                         .debug_error])
  else
    let m_id := shader_program_id
    let r := shader_program_t.introspect m_id uniforms 0 0 p.m_uniforms
    let calls := build ++ [.glUseProgram m_id,
                           .glGetProgramiv m_id GL_ACTIVE_UNIFORMS,
                           .debug_info [m_id, uniforms.length]]
                       ++ r.2 ++ [.glUseProgram 0, .glGetError]
    if error ≠ GL_NO_ERROR then
      let p' : shader_program_t := { m_id := 0, m_uniforms := [] }
      (p'.valid, p', calls ++ [.glDeleteProgram m_id, .debug_error])
    else
      let p' : shader_program_t := { m_id := m_id, m_uniforms := r.1 }
      (p'.valid, p', calls)

/-- Embedding of `shader_program_t::destroy`. -/
def shader_program_t.destroy (p : shader_program_t) : shader_program_t × List gl_call :=
  ({ p with m_id := 0 }, if p.valid then [.glDeleteProgram p.m_id] else [])

/-! ## Texture -/

/-- Embedding of `texture_t::pixel_format_t`. -/
inductive pixel_format_t where
  | r8
  | rg8
  | rgb8
  | rgba8
  | count
  | unknown
  deriving DecidableEq, Repr

/-- The conversion `int(format)`. -/
def pixel_format_t.toNat : pixel_format_t → Nat
  | .r8 => 0
  | .rg8 => 1
  | .rgb8 => 2
  | .rgba8 => 3
  | .count => 4
  | .unknown => 5

structure pixel_format_desc where
  internal_format : GLenum
  provided_format : GLenum
  pixel_element_type : GLenum
  deriving DecidableEq, Repr

def gl_pixel_formats : List pixel_format_desc :=
  [ ⟨GL_R8, GL_RED, GL_UNSIGNED_BYTE⟩,
    ⟨GL_RG8, GL_RG, GL_UNSIGNED_BYTE⟩,
    ⟨GL_RGB8, GL_RGB, GL_UNSIGNED_BYTE⟩,
    ⟨GL_RGBA8, GL_RGBA, GL_UNSIGNED_BYTE⟩ ]

def determine_pixel_format (components : Int) : pixel_format_t :=
  if components = 1 then .r8
  else if components = 2 then .rg8
  else if components = 3 then .rgb8
  else if components = 4 then .rgba8
  else .unknown

/-- Embedding of `texture_t`. -/
structure texture_t where
  m_id : Nat := 0
  m_width : Int := 0
  m_height : Int := 0
  deriving DecidableEq, Repr

def texture_t.valid (t : texture_t) : Bool := t.m_id != 0

/-- The loop `while (value > 1) { value >>= 1; levels++; }` of
`texture_t::create`; returns the final `levels`. -/
def mip_levels_loop (value levels : Int) : Int :=
  if 1 < value then mip_levels_loop (value >>> (1 : Nat)) (levels + 1) else levels
termination_by value.toNat
decreasing_by
  rw [Int.shiftRight_eq_div_pow]
  omega

/-- The value of the local `levels` of `texture_t::create` at the point where it
is logged. -/
def texture_levels (width height : Int) (mipmap : Bool) : Int :=
  if mipmap then mip_levels_loop (if width > height then width else height) 1 else 1

/-- Embedding of `texture_t::create` (the pixel bytes at `data` are passed on
to the device untouched and are left out).  `debug` tells whether
`opengl_check_errors()` is compiled in.  Device responses: the name written by
`glGenTextures`, the value of `glGetError` inside `opengl_check_errors`, and the
value of the final `glGetError`. -/
def texture_t.create (t : texture_t) (width height : Int) (format : pixel_format_t)
    (mipmap : Bool) (debug : Bool) (texture_id : Nat) (check_error error : GLenum) :
    Except fault (Bool × texture_t × List gl_call) :=
  match gl_pixel_formats[format.toNat]? with
  | none => .error .out_of_bounds
  | some desc =>
    let upload : List gl_call :=
      [.glGenTextures 1,
       .glBindTexture GL_TEXTURE_2D texture_id,
       .glTexImage2D GL_TEXTURE_2D 0 desc.internal_format width height 0
          desc.provided_format desc.pixel_element_type]
    if mipmap ∧ debug ∧ check_error ≠ GL_NO_ERROR then
      .error .assertion_failed
    else
      let mip : List gl_call :=
        if mipmap then
          [.glGenerateMipmap GL_TEXTURE_2D] ++ (if debug then [.glGetError] else [])
        else []
      let levels := texture_levels width height mipmap
      let calls := upload ++ mip ++ [.glBindTexture GL_TEXTURE_2D 0, .glGetError]
      if error ≠ GL_NO_ERROR then
        .ok (false, t, calls ++ [.glDeleteTextures 1 texture_id, .debug_error])
      else
        let t' : texture_t := { m_id := texture_id, m_width := width, m_height := height }
        .ok (t'.valid, t', calls ++ [.debug_info [texture_id, width, height, levels]])

/-- Embedding of `texture_t::create_from_file`.  `content` is what
`file_system_t::load_content` produced (`none` when it failed); `image` is the
result of `stbi_load_from_memory`: `none` for a null bitmap, else width, height
and component count. -/
def texture_t.create_from_file (t : texture_t) (mipmap : Bool) (debug : Bool)
    (content : Option (List Nat)) (image : Option (Int × Int × Int))
    (texture_id : Nat) (check_error error : GLenum) :
    Except fault (Bool × texture_t × List gl_call) :=
  match content with
  | none => .ok (false, t, [])
  | some _ =>
    match image with
    | none => .ok (false, t, [.debug_warn])
    | some (width, height, components) =>
      match t.create width height (determine_pixel_format components) mipmap debug
              texture_id check_error error with
      | .error e => .error e
      | .ok (_, t', calls) => .ok (t'.valid, t', calls)

/-- Embedding of `texture_t::destroy`. -/
def texture_t.destroy (t : texture_t) : texture_t × List gl_call :=
  ({ m_id := 0, m_width := 0, m_height := 0 },
   if t.valid then [.glDeleteTextures 1 t.m_id] else [])

/-! ## Sampler state and vertex buffer -/

/-- Embedding of `sampler_state_t`. -/
structure sampler_state_t where
  m_id : Nat := 0
  deriving DecidableEq, Repr

def sampler_state_t.valid (s : sampler_state_t) : Bool := s.m_id != 0

/-- Embedding of `sampler_state_t::destroy`. -/
def sampler_state_t.destroy (s : sampler_state_t) : sampler_state_t × List gl_call :=
  ({ m_id := 0 }, if s.valid then [.glDeleteSamplers 1 s.m_id] else [])

/-- Embedding of `vertex_buffer_t`. -/
structure vertex_buffer_t where
  m_id : Nat := 0
  deriving DecidableEq, Repr

def vertex_buffer_t.valid (b : vertex_buffer_t) : Bool := b.m_id != 0

/-- Embedding of `vertex_buffer_t::usage_hint_t`. -/
inductive usage_hint_t where
  | immutable
  | dynamic
  deriving DecidableEq, Repr

/-- Embedding of `vertex_buffer_t::create` (the bytes at `data` are left out;
`usage` is not read by the source).  Device responses: the name written by
`glGenBuffers` and the value of `glGetError`. -/
def vertex_buffer_t.create (b : vertex_buffer_t) (size : Nat) (_usage : usage_hint_t)
    (vertex_buffer_id : Nat) (error : GLenum) : Bool × vertex_buffer_t × List gl_call :=
  let calls : List gl_call :=
    [.glGenBuffers 1,
     .glBindBuffer GL_ARRAY_BUFFER vertex_buffer_id,
     .glBufferData GL_ARRAY_BUFFER size GL_STATIC_DRAW,
     .glBindBuffer GL_ARRAY_BUFFER 0,
     .glGetError]
  if error ≠ GL_NO_ERROR then
    (false, b, calls ++ [.glDeleteBuffers 1 vertex_buffer_id, .debug_error])
  else
    let b' : vertex_buffer_t := { m_id := vertex_buffer_id }
    (b'.valid, b', calls)

/-- Embedding of `vertex_buffer_t::destroy`. -/
def vertex_buffer_t.destroy (b : vertex_buffer_t) : vertex_buffer_t × List gl_call :=
  ({ m_id := 0 }, if b.valid then [.glDeleteBuffers 1 b.m_id] else [])

/-! ## Vertex layout -/

/-- Embedding of `attribute_type_t`. -/
inductive attribute_type_t where
  | float_
  | ubyte
  deriving DecidableEq, Repr

/-- The conversion `int(type)`. -/
def attribute_type_t.toNat : attribute_type_t → Nat
  | .float_ => 0
  | .ubyte => 1

structure vertex_attrib_desc where
  type : GLenum
  size : Nat
  deriving DecidableEq, Repr

/-- The table `gl_attrib_desc`: `sizeof(float)` is 4, `sizeof(uint8_t)` is 1. -/
def gl_attrib_desc : List vertex_attrib_desc :=
  [ ⟨GL_FLOAT, 4⟩, ⟨GL_UNSIGNED_BYTE, 1⟩ ]

/-- Embedding of `vertex_layout_t::attribute_t` (all fields `uint32_t`). -/
structure attribute_t where
  index : Nat := 0
  type : Nat := 0
  size : Nat := 0
  count : Nat := 0
  normalized : Nat := 0
  deriving DecidableEq, Repr

def max_vertex_attributes : Nat := 4

/-- Embedding of `vertex_layout_t`; `m_attributes` is the array of
`max_vertex_attributes` entries. -/
structure vertex_layout_t where
  m_stride : Nat := 0
  m_count : Nat := 0
  m_attributes : List attribute_t := List.replicate max_vertex_attributes {}
  deriving DecidableEq, Repr

/-- Embedding of `vertex_layout_t::clear`. -/
def vertex_layout_t.clear (l : vertex_layout_t) : vertex_layout_t :=
  { l with m_count := 0, m_stride := 0 }

/-- Embedding of `vertex_layout_t::add`; the two `assert`s are faults, the
`uint32_t` arithmetic is modulo `2^32`. -/
def vertex_layout_t.add (l : vertex_layout_t) (type : attribute_type_t) (count : Nat)
    (normalized : Bool) : Except fault vertex_layout_t :=
  if ¬ l.m_count < max_vertex_attributes then .error .assertion_failed
  else if ¬ count ≤ 4 then .error .assertion_failed
  else
    match gl_attrib_desc[type.toNat]? with
    | none => .error .out_of_bounds
    | some desc =>
      let attrib : attribute_t :=
        { index := l.m_count
          type := desc.type
          size := desc.size
          count := count
          normalized := if normalized then GL_TRUE else GL_FALSE }
      .ok { m_attributes := l.m_attributes.set l.m_count attrib
            m_count := (l.m_count + 1) % 2 ^ 32
            m_stride := (l.m_stride + desc.size * count % 2 ^ 32) % 2 ^ 32 }

/-- The arguments of one `add` call. -/
structure add_args where
  type : attribute_type_t
  count : Nat
  normalized : Bool
  deriving DecidableEq, Repr

/-- A chain `layout.add(..).add(..)...`, one call per element of the list. -/
def vertex_layout_t.add_all (l : vertex_layout_t) : List add_args → Except fault vertex_layout_t
  | [] => .ok l
  | a :: rest =>
    match l.add a.type a.count a.normalized with
    | .error e => .error e
    | .ok l' => vertex_layout_t.add_all l' rest

/-- The element size as the specification gives it: 4 for `float_`, 1 for
`ubyte`. -/
def spec_element_size : attribute_type_t → Nat
  | .float_ => 4
  | .ubyte => 1

/-- The stride as the specification gives it: the sum of
`count_i * element_size(type_i)` over the added attributes. -/
def spec_stride (adds : List add_args) : Nat :=
  (adds.map fun a => a.count * spec_element_size a.type).sum

/-! ## Call sequences and concrete objects used to exercise the embedding -/

/-- The slot `set_uniform` resolves a name hash to: the first one, in list
order, whose `m_name_hash` equals it. -/
def find_slot (name_hash : Nat) (uniforms : List uniform_t) : Option uniform_t :=
  uniforms.find? fun s => s.m_name_hash == name_hash

/-- The calls `set_uniform(name, v)` for each `v` of the list, in order, on the
same renderer; the commands issued are concatenated. -/
def renderer_t.set_uniform_seq (r : renderer_t) (name : List Nat) :
    List uniform_value → Except fault (renderer_t × List gl_call)
  | [] => .ok (r, [])
  | value :: rest =>
    match r.set_uniform name value with
    | .error e => .error e
    | .ok (r', calls) =>
      match renderer_t.set_uniform_seq r' name rest with
      | .error e => .error e
      | .ok (r'', calls') => .ok (r'', calls ++ calls')

/-- The bytes of the name `u_color`. -/
def u_color : List Nat := [117, 95, 99, 111, 108, 111, 114]

/-- A program as `create` leaves a default-constructed object when the device
links it and reports the single active uniform `vec3 u_color` at location 0. -/
def u_color_program : shader_program_t :=
  (shader_program_t.create {} [] [] 1 2 3 GL_TRUE [⟨u_color, GL_FLOAT_VEC3, 0⟩] GL_NO_ERROR).2.1

/-- The `vec3` `(0.0f, 0.25f, 12.587489f)`, given by the bit patterns of its
components. -/
def zero_hash_vec3 : vec3 := ⟨0, 1048576000, 1095329371⟩

/-- The `vec3` `(4.0f, 32.0f, 49.0f)`. -/
def colliding_vec3_a : vec3 := ⟨1082130432, 1107296256, 1111752704⟩

/-- The `vec3` `(32.0f, 49.0f, 3.0f)`. -/
def colliding_vec3_b : vec3 := ⟨1107296256, 1111752704, 1077936128⟩

/-- Whether a device command releases a handle of the kind a wrapper owns
(program, texture, sampler, buffer). -/
def gl_call.is_delete : gl_call → Bool
  | .glDeleteProgram _ => true
  | .glDeleteTextures _ _ => true
  | .glDeleteSamplers _ _ => true
  | .glDeleteBuffers _ _ => true
  | _ => false

/-- Number of release commands in a command list. -/
def delete_count (calls : List gl_call) : Nat :=
  (calls.filter gl_call.is_delete).length

/-- Whether a device command is a `glUniform1i`. -/
def gl_call.is_glUniform1i : gl_call → Bool
  | .glUniform1i _ _ => true
  | _ => false

/-! ## Device error checks -/

/-- Embedding of the define `opengl_check_errors()`: empty unless `debug`
(`_DEBUG`) is set; then it queries `glGetError` (`error` is the value returned)
and asserts that it is `GL_NO_ERROR`. -/
def opengl_check_errors (debug : Bool) (error : GLenum) : Except fault (List gl_call) :=
  if debug then
    if error ≠ GL_NO_ERROR then .error .assertion_failed else .ok [.glGetError]
  else .ok []

/-- The conversion of a `uint32_t` to `GLint`/`GLsizei` (32-bit two's complement). -/
def to_GLint (n : Nat) : Int :=
  if n % 2 ^ 32 < 2 ^ 31 then (n % 2 ^ 32 : Nat) else ((n % 2 ^ 32 : Nat) : Int) - 2 ^ 32

/-! ## Sampler state creation -/

/-- Embedding of `sampler_state_t::filter_mode_t`. -/
inductive filter_mode_t where
  | nearest
  | linear
  | nearest_mip_nearest
  | nearest_mip_linear
  | linear_mip_nearest
  | linear_mip_linear
  deriving DecidableEq, Repr

/-- The conversion `int(filter)`. -/
def filter_mode_t.toNat : filter_mode_t → Nat
  | .nearest => 0
  | .linear => 1
  | .nearest_mip_nearest => 2
  | .nearest_mip_linear => 3
  | .linear_mip_nearest => 4
  | .linear_mip_linear => 5

/-- Embedding of `sampler_state_t::address_mode_t`. -/
inductive address_mode_t where
  | clamp_to_edge
  | clamp_to_border
  | wrap
  | mirror
  deriving DecidableEq, Repr

/-- The conversion `int(address)`. -/
def address_mode_t.toNat : address_mode_t → Nat
  | .clamp_to_edge => 0
  | .clamp_to_border => 1
  | .wrap => 2
  | .mirror => 3

def gl_filter_modes : List GLenum :=
  [ GL_NEAREST,
    GL_LINEAR,
    GL_NEAREST_MIPMAP_NEAREST,
    GL_NEAREST_MIPMAP_LINEAR,
    GL_LINEAR_MIPMAP_NEAREST,
    GL_LINEAR_MIPMAP_LINEAR ]

def gl_address_modes : List GLenum :=
  [ GL_CLAMP_TO_EDGE,
    GL_CLAMP_TO_BORDER,
    GL_REPEAT,
    GL_MIRRORED_REPEAT ]

/-- Embedding of `sampler_state_t::create`.  Device responses: the name
written by `glGenSamplers` and the value of `glGetError`. -/
def sampler_state_t.create (s : sampler_state_t) (filter : filter_mode_t)
    (address_u address_v : address_mode_t) (sampler_state_id : Nat) (error : GLenum) :
    Except fault (Bool × sampler_state_t × List gl_call) :=
  match gl_filter_modes[filter.toNat]?, gl_address_modes[address_u.toNat]?,
        gl_address_modes[address_v.toNat]? with
  | some min_filter, some wrap_s, some wrap_t =>
    let calls : List gl_call :=
      [.glGenSamplers 1,
       .glSamplerParameteri sampler_state_id GL_TEXTURE_MIN_FILTER min_filter,
       .glSamplerParameteri sampler_state_id GL_TEXTURE_MAG_FILTER
          (if filter = .nearest then GL_NEAREST else GL_LINEAR),
       .glSamplerParameteri sampler_state_id GL_TEXTURE_WRAP_S wrap_s,
       .glSamplerParameteri sampler_state_id GL_TEXTURE_WRAP_T wrap_t,
       .glGetError]
    if error ≠ GL_NO_ERROR then
      .ok (false, s, calls ++ [.glDeleteSamplers 1 sampler_state_id, .debug_error])
    else
      let s' : sampler_state_t := { m_id := sampler_state_id }
      .ok (s'.valid, s', calls)
  | _, _, _ => .error .out_of_bounds

/-! ## Renderer: construction and destruction -/

/-- Embedding of the constructor `renderer_t::renderer_t()`.  The first
argument is the value of the file-level static `gl_vertex_array_object_id` on
entry, `vertex_array_id` the name `glGenVertexArrays` writes to it; returns the
value of the static afterwards, the new object and the commands issued. -/
def renderer_t.ctor (gl_vertex_array_object_id : Nat) (vertex_array_id : Nat) :
    Except fault (Nat × renderer_t × List gl_call) :=
  if gl_vertex_array_object_id ≠ 0 then .error .assertion_failed
  else
    .ok (vertex_array_id, {},
         [.glGenVertexArrays 1, .glBindVertexArray vertex_array_id,
          .debug_info [vertex_array_id]])

/-- Embedding of the destructor `renderer_t::~renderer_t()`: returns the value
of the static `gl_vertex_array_object_id` afterwards and the commands issued. -/
def renderer_t.dtor (gl_vertex_array_object_id : Nat) : Nat × List gl_call :=
  (gl_vertex_array_object_id, [.glDeleteVertexArrays 1 gl_vertex_array_object_id])

/-- The part of the process state the renderer's lifetime touches: the static
`gl_vertex_array_object_id` (0 at program start) and the number of `renderer_t`
objects brought to life, by the constructor or as a copy, and not yet
destroyed. -/
structure process_t where
  gl_vertex_array_object_id : Nat := 0
  live : Nat := 0
  deriving DecidableEq, Repr

/-- What can happen to `renderer_t` objects: a construction through
`renderer_t()` (with the name the device generates), a copy of a live object
through the implicit copy constructor (`renderer_t` declares none, so the
compiler provides it), or a destruction. -/
inductive renderer_event where
  | construct (vertex_array_id : Nat)
  | copy
  | destruct
  deriving DecidableEq, Repr

/-- One event on the process state.  The implicit copy constructor copies
`m_program` only: it runs no assertion, issues no device command and does not
write the static; it needs a live object as its source, so without one the
event does not take place. -/
def process_t.step (s : process_t) : renderer_event → Except fault process_t
  | .construct vertex_array_id =>
    match renderer_t.ctor s.gl_vertex_array_object_id vertex_array_id with
    | .error e => .error e
    | .ok (id, _, _) => .ok { gl_vertex_array_object_id := id, live := s.live + 1 }
  | .copy =>
    .ok (if 0 < s.live then { s with live := s.live + 1 } else s)
  | .destruct =>
    .ok { gl_vertex_array_object_id := (renderer_t.dtor s.gl_vertex_array_object_id).1
          live := s.live - 1 }

/-- A sequence of events, in order. -/
def process_t.run (s : process_t) : List renderer_event → Except fault process_t
  | [] => .ok s
  | e :: rest =>
    match s.step e with
    | .error f => .error f
    | .ok s' => process_t.run s' rest

/-- Whether an event is a construction through `renderer_t()`. -/
def renderer_event.is_construct : renderer_event → Bool
  | .construct _ => true
  | _ => false

/-- Whether an event is a copy. -/
def renderer_event.is_copy : renderer_event → Bool
  | .copy => true
  | _ => false

/-! ## Pipeline state blocks -/

/-- Embedding of `blend_state_t::blend_equation_t`. -/
inductive blend_equation_t where
  | add
  | subtract
  | reverse_subtract
  | min
  | max
  deriving DecidableEq, Repr

/-- The conversion `int(equation)`. -/
def blend_equation_t.toNat : blend_equation_t → Nat
  | .add => 0
  | .subtract => 1
  | .reverse_subtract => 2
  | .min => 3
  | .max => 4

/-- Embedding of `blend_state_t::blend_factor_t`. -/
inductive blend_factor_t where
  | zero
  | one
  | src_color
  | one_minus_src_color
  | dst_color
  | one_minus_dst_color
  | src_alpha
  | one_minus_src_alpha
  | dst_alpha
  | one_minus_dst_alpha
  | constant_color
  | one_minus_constant_color
  | constant_alpha
  | one_minus_constant_alpha
  | src_alpha_saturate
  deriving DecidableEq, Repr

/-- The conversion `int(factor)`. -/
def blend_factor_t.toNat : blend_factor_t → Nat
  | .zero => 0
  | .one => 1
  | .src_color => 2
  | .one_minus_src_color => 3
  | .dst_color => 4
  | .one_minus_dst_color => 5
  | .src_alpha => 6
  | .one_minus_src_alpha => 7
  | .dst_alpha => 8
  | .one_minus_dst_alpha => 9
  | .constant_color => 10
  | .one_minus_constant_color => 11
  | .constant_alpha => 12
  | .one_minus_constant_alpha => 13
  | .src_alpha_saturate => 14

/-- Embedding of `blend_state_t`. -/
structure blend_state_t where
  m_enabled : Bool := true
  m_color_eq : blend_equation_t := .add
  m_color_src : blend_factor_t := .src_alpha
  m_color_dest : blend_factor_t := .one_minus_src_alpha
  m_alpha_eq : blend_equation_t := .add
  m_alpha_src : blend_factor_t := .one
  m_alpha_dest : blend_factor_t := .one
  deriving DecidableEq, Repr

def gl_blend_equations : List GLenum :=
  [ GL_FUNC_ADD,
    GL_FUNC_SUBTRACT,
    GL_FUNC_REVERSE_SUBTRACT,
    GL_MIN,
    GL_MAX ]

def gl_blend_factors : List GLenum :=
  [ GL_ZERO,
    GL_ONE,
    GL_SRC_COLOR,
    GL_ONE_MINUS_SRC_COLOR,
    GL_DST_COLOR,
    GL_ONE_MINUS_DST_COLOR,
    GL_SRC_ALPHA,
    GL_ONE_MINUS_SRC_ALPHA,
    GL_DST_ALPHA,
    GL_ONE_MINUS_DST_ALPHA,
    GL_CONSTANT_COLOR,
    GL_ONE_MINUS_CONSTANT_COLOR,
    GL_CONSTANT_ALPHA,
    GL_ONE_MINUS_CONSTANT_ALPHA,
    GL_SRC_ALPHA_SATURATE ]

/-- Embedding of `renderer_t::set_blend_state`; `check_error` is the value
`glGetError` returns inside `opengl_check_errors()`.  The renderer object is
returned as it was: the function reads and writes none of its members. -/
def renderer_t.set_blend_state (r : renderer_t) (state : blend_state_t) (debug : Bool)
    (check_error : GLenum) : Except fault (renderer_t × List gl_call) :=
  let body : Except fault (List gl_call) :=
    if state.m_enabled then
      match gl_blend_factors[state.m_color_src.toNat]?, gl_blend_factors[state.m_color_dest.toNat]?,
            gl_blend_factors[state.m_alpha_src.toNat]?, gl_blend_factors[state.m_alpha_dest.toNat]?,
            gl_blend_equations[state.m_color_eq.toNat]?,
            gl_blend_equations[state.m_alpha_eq.toNat]? with
      | some color_src, some color_dest, some alpha_src, some alpha_dest, some color_eq,
        some alpha_eq =>
        .ok [.glEnable GL_BLEND,
             .glBlendFuncSeparate color_src color_dest alpha_src alpha_dest,
             .glBlendEquationSeparate color_eq alpha_eq]
      | _, _, _, _, _, _ => .error .out_of_bounds
    else
      .ok [.glDisable GL_BLEND]
  match body with
  | .error e => .error e
  | .ok calls =>
    match opengl_check_errors debug check_error with
    | .error e => .error e
    | .ok check => .ok (r, calls ++ check)

/-- Embedding of `depth_stencil_state_t::compare_func_t`. -/
inductive compare_func_t where
  | never
  | less
  | equal
  | less_equal
  | greater
  | not_equal
  | greater_equal
  | always
  deriving DecidableEq, Repr

/-- The conversion `int(func)`. -/
def compare_func_t.toNat : compare_func_t → Nat
  | .never => 0
  | .less => 1
  | .equal => 2
  | .less_equal => 3
  | .greater => 4
  | .not_equal => 5
  | .greater_equal => 6
  | .always => 7

/-- Embedding of `depth_stencil_state_t`; `m_znear` and `m_zfar` are the bit
patterns of the two floats (defaults `0.0f` and `1.0f`). -/
structure depth_stencil_state_t where
  m_read : Bool := true
  m_write : Bool := true
  m_znear : Nat := 0
  m_zfar : Nat := 0x3F800000
  m_func : compare_func_t := .less
  deriving DecidableEq, Repr

def gl_compare_funcs : List GLenum :=
  [ GL_NEVER,
    GL_LESS,
    GL_EQUAL,
    GL_LEQUAL,
    GL_GREATER,
    GL_NOTEQUAL,
    GL_GEQUAL,
    GL_ALWAYS ]

/-- Embedding of `renderer_t::set_depth_stencil_state`. -/
def renderer_t.set_depth_stencil_state (r : renderer_t) (state : depth_stencil_state_t)
    (debug : Bool) (check_error : GLenum) : Except fault (renderer_t × List gl_call) :=
  let body : Except fault (List gl_call) :=
    if state.m_read then
      match gl_compare_funcs[state.m_func.toNat]? with
      | some func =>
        .ok [.glEnable GL_DEPTH_TEST,
             .glDepthFunc func,
             if state.m_write then .glDepthMask GL_TRUE else .glDepthMask GL_FALSE]
      | none => .error .out_of_bounds
    else
      .ok [.glDisable GL_DEPTH_TEST]
  match body with
  | .error e => .error e
  | .ok calls =>
    match opengl_check_errors debug check_error with
    | .error e => .error e
    | .ok check => .ok (r, calls ++ [.glDepthRange state.m_znear state.m_zfar] ++ check)

/-- Embedding of `rasterizer_state_t::cull_mode_t`. -/
inductive cull_mode_t where
  | none
  | back
  | front
  | both
  deriving DecidableEq, Repr

/-- The conversion `int(cull_mode)`. -/
def cull_mode_t.toNat : cull_mode_t → Nat
  | .none => 0
  | .back => 1
  | .front => 2
  | .both => 3

/-- Embedding of `rasterizer_state_t::front_face_t`. -/
inductive front_face_t where
  | ccw
  | cw
  deriving DecidableEq, Repr

/-- The conversion `int(front_face)`. -/
def front_face_t.toNat : front_face_t → Nat
  | .ccw => 0
  | .cw => 1

/-- Embedding of `rasterizer_state_t::polygon_mode_t`. -/
inductive polygon_mode_t where
  | fill
  | wireframe
  deriving DecidableEq, Repr

/-- Embedding of `rasterizer_state_t`. -/
structure rasterizer_state_t where
  m_cull_mode : cull_mode_t := .back
  m_front_face : front_face_t := .cw
  m_polygon_mode : polygon_mode_t := .fill
  deriving DecidableEq, Repr

def gl_cull_modes : List GLenum :=
  [ GL_NONE,
    GL_BACK,
    GL_FRONT,
    GL_FRONT_AND_BACK ]

def gl_front_faces : List GLenum :=
  [ GL_CCW,
    GL_CW ]

/-- Embedding of `renderer_t::set_rasterizer_state`. -/
def renderer_t.set_rasterizer_state (r : renderer_t) (state : rasterizer_state_t)
    (debug : Bool) (check_error : GLenum) : Except fault (renderer_t × List gl_call) :=
  let body : Except fault (List gl_call) :=
    if state.m_cull_mode ≠ .none then
      match gl_cull_modes[state.m_cull_mode.toNat]? with
      | some mode => .ok [.glEnable GL_CULL_FACE, .glCullFace mode]
      | none => .error .out_of_bounds
    else
      .ok [.glDisable GL_CULL_FACE]
  match body, gl_front_faces[state.m_front_face.toNat]? with
  | .error e, _ => .error e
  | .ok _, none => .error .out_of_bounds
  | .ok calls, some front_face =>
    match opengl_check_errors debug check_error with
    | .error e => .error e
    | .ok check =>
      .ok (r, calls ++ [.glFrontFace front_face,
                        .glPolygonMode GL_FRONT_AND_BACK
                          (if state.m_polygon_mode = .fill then GL_FILL else GL_LINE)] ++ check)

/-! ## Vertex buffer and layout binding -/

/-- The attribute loop of `renderer_t::set_vertex_buffer_and_layout`, with
`remaining = layout.m_count - index` iterations to go; `offset` is the byte
offset held in the pointer `offset`, and `check_error k` the value `glGetError`
returns in the `k`-th `opengl_check_errors()` of the call. -/
def set_vertex_buffer_and_layout_loop (layout : vertex_layout_t) (debug : Bool)
    (check_error : Nat → GLenum) : Nat → Nat → Nat → Except fault (List gl_call)
  | 0, _, _ => .ok []
  | remaining + 1, index, offset =>
    match layout.m_attributes[index]? with
    | none => .error .out_of_bounds
    | some attrib =>
      match opengl_check_errors debug (check_error (index + 1)) with
      | .error e => .error e
      | .ok check =>
        match set_vertex_buffer_and_layout_loop layout debug check_error remaining (index + 1)
                (offset + attrib.count * attrib.size % 2 ^ 32) with
        | .error e => .error e
        | .ok calls =>
          .ok ([.glEnableVertexAttribArray attrib.index,
                .glVertexAttribPointer attrib.index (to_GLint attrib.count) attrib.type
                  (attrib.normalized % 256) (to_GLint layout.m_stride) offset]
               ++ check ++ calls)

/-- Embedding of `renderer_t::set_vertex_buffer_and_layout`. -/
def renderer_t.set_vertex_buffer_and_layout (r : renderer_t) (buffer : vertex_buffer_t)
    (layout : vertex_layout_t) (debug : Bool) (check_error : Nat → GLenum) :
    Except fault (renderer_t × List gl_call) :=
  match opengl_check_errors debug (check_error 0) with
  | .error e => .error e
  | .ok check =>
    match set_vertex_buffer_and_layout_loop layout debug check_error layout.m_count 0 0 with
    | .error e => .error e
    | .ok calls => .ok (r, [.glBindBuffer GL_ARRAY_BUFFER buffer.m_id] ++ check ++ calls)

/-! ## Specification-side definitions and further concrete objects -/

/-- The device type tag of an element type, as the specification names it:
`GL_FLOAT` for `float_`, `GL_UNSIGNED_BYTE` for `ubyte`. -/
def spec_type_tag : attribute_type_t → GLenum
  | .float_ => GL_FLOAT
  | .ubyte => GL_UNSIGNED_BYTE

/-- The attribute descriptor the specification has `add` append at position
`index`. -/
def spec_attribute (index : Nat) (a : add_args) : attribute_t :=
  { index := index
    type := spec_type_tag a.type
    size := spec_element_size a.type
    count := a.count
    normalized := if a.normalized then 1 else 0 }

/-- The standard 32-bit FNV-1a as the specification words it: from the offset
basis, for each byte in order, xor the byte in, then multiply by the prime,
modulo `2^32`. -/
def spec_fnv1a32 (bytes : List Nat) : Nat :=
  bytes.foldl (fun result byte => ((result ^^^ byte) * 16777619) % 2 ^ 32) 2166136261

/-- The minification constant the specification assigns to a filter mode. -/
def spec_min_filter : filter_mode_t → GLenum
  | .nearest => GL_NEAREST
  | .linear => GL_LINEAR
  | .nearest_mip_nearest => GL_NEAREST_MIPMAP_NEAREST
  | .nearest_mip_linear => GL_NEAREST_MIPMAP_LINEAR
  | .linear_mip_nearest => GL_LINEAR_MIPMAP_NEAREST
  | .linear_mip_linear => GL_LINEAR_MIPMAP_LINEAR

/-- The wrap constant the specification assigns to an address mode. -/
def spec_wrap : address_mode_t → GLenum
  | .clamp_to_edge => GL_CLAMP_TO_EDGE
  | .clamp_to_border => GL_CLAMP_TO_BORDER
  | .wrap => GL_REPEAT
  | .mirror => GL_MIRRORED_REPEAT

/-- The bytes of the name `costarring`. -/
def costarring : List Nat := [99, 111, 115, 116, 97, 114, 114, 105, 110, 103]

/-- The bytes of the name `liquid`. -/
def liquid : List Nat := [108, 105, 113, 117, 105, 100]

/-- A program as `create` leaves a default-constructed object when the device
links it and reports the active uniforms `vec3 costarring` at location 0 and
`vec3 liquid` at location 1. -/
def colliding_names_program : shader_program_t :=
  (shader_program_t.create {} [] [] 1 2 3 GL_TRUE
    [⟨costarring, GL_FLOAT_VEC3, 0⟩, ⟨liquid, GL_FLOAT_VEC3, 1⟩] GL_NO_ERROR).2.1

/-- Whether a device command is a `glVertexAttribPointer`. -/
def gl_call.is_glVertexAttribPointer : gl_call → Bool
  | .glVertexAttribPointer _ _ _ _ _ _ => true
  | _ => false

/-- The attribute descriptions the specification asks of
`set_vertex_buffer_and_layout` for the attributes `adds`, the first of which has
position `index` and byte offset `offset`: each attribute is described with its
count, type tag and normalized flag, the layout's stride, and the byte offset
accumulated over the attributes before it. -/
def spec_pointers (stride : Nat) : Nat → Nat → List add_args → List gl_call
  | _, _, [] => []
  | index, offset, a :: rest =>
    .glVertexAttribPointer index a.count (spec_type_tag a.type)
        (if a.normalized then 1 else 0) stride offset
      :: spec_pointers stride (index + 1) (offset + a.count * spec_element_size a.type) rest

end kiwi

/-! # Theorems -/

namespace kiwi

/-! ## Uniform cache -/

/-- When the scan finds slot `u` and its type is the asserted one, the loop
returns, uploads exactly when the content hash differs from the cached one, and
the slot found afterwards is `u` with the content hash cached. -/
theorem set_uniform_loop_found (name_hash : Nat) (value : uniform_value) :
    ∀ (uniforms : List uniform_t) (u : uniform_t),
      find_slot name_hash uniforms = some u →
      u.m_value_type = value.gl_type →
      ∃ uniforms',
        set_uniform_loop name_hash value uniforms =
          .ok (uniforms',
               if u.m_value_hash ≠ fnv1a32 value.value_ptr value.sizeof
               then [value.upload u.m_location] else []) ∧
        find_slot name_hash uniforms' =
          some { u with m_value_hash := fnv1a32 value.value_ptr value.sizeof } := by
  intro uniforms
  induction uniforms with
  | nil => intro u hfind; simp [find_slot] at hfind
  | cons s rest ih =>
    intro u hfind hty
    by_cases hs : s.m_name_hash = name_hash
    · have hsu : s = u := by
        simpa [find_slot, List.find?_cons, hs] using hfind
      subst hsu
      by_cases hv : s.m_value_hash = fnv1a32 value.value_ptr value.sizeof
      · refine ⟨s :: rest, ?_, ?_⟩
        · simp [set_uniform_loop, hs, hty, hv]
        · have : ({ s with m_value_hash := fnv1a32 value.value_ptr value.sizeof } : uniform_t) = s := by
            cases s; simp_all
          rw [this]
          simp [find_slot, List.find?_cons, hs]
      · refine ⟨{ s with m_value_hash := fnv1a32 value.value_ptr value.sizeof } :: rest, ?_, ?_⟩
        · simp [set_uniform_loop, hs, hty, hv]
        · simp [find_slot, List.find?_cons, hs]
    · have hrest : find_slot name_hash rest = some u := by
        simpa [find_slot, List.find?_cons, hs] using hfind
      obtain ⟨rest', hloop, hfound⟩ := ih u hrest hty
      refine ⟨s :: rest', ?_, ?_⟩
      · simp [set_uniform_loop, hs, hloop]
      · simpa [find_slot, List.find?_cons, hs] using hfound

/-- One call of `set_uniform` on a renderer whose active program resolves the
name to slot `u` of the asserted type. -/
theorem set_uniform_found (r : renderer_t) (p : shader_program_t) (name : List Nat)
    (value : uniform_value) (u : uniform_t)
    (hp : r.m_program = some p)
    (hfind : find_slot (fnv1a32 name name.length) p.m_uniforms = some u)
    (hty : u.m_value_type = value.gl_type) :
    ∃ r' p',
      r.set_uniform name value =
        .ok (r', if u.m_value_hash ≠ fnv1a32 value.value_ptr value.sizeof
                 then [value.upload u.m_location] else []) ∧
      r'.m_program = some p' ∧
      find_slot (fnv1a32 name name.length) p'.m_uniforms =
        some { u with m_value_hash := fnv1a32 value.value_ptr value.sizeof } := by
  obtain ⟨uniforms', hloop, hfound⟩ :=
    set_uniform_loop_found (fnv1a32 name name.length) value p.m_uniforms u hfind hty
  refine ⟨{ r with m_program := some { p with m_uniforms := uniforms' } },
          { p with m_uniforms := uniforms' }, ?_, rfl, hfound⟩
  simp [renderer_t.set_uniform, hp, hloop]

theorem upload_count_upload (value : uniform_value) (location : Int) :
    upload_count [value.upload location] = 1 := by
  cases value <;> rfl


/-- Two calls in a row, unfolded. -/
theorem set_uniform_seq_pair (r r1 r2 : renderer_t) (name : List Nat) (v1 v2 : uniform_value)
    (c1 c2 : List gl_call)
    (h1 : r.set_uniform name v1 = .ok (r1, c1))
    (h2 : r1.set_uniform name v2 = .ok (r2, c2)) :
    r.set_uniform_seq name [v1, v2] = .ok (r2, c1 ++ c2) := by
  simp [renderer_t.set_uniform_seq, h1, h2]

/-- C1 (as stated) fails: on the program `create` builds for the single uniform
`vec3 u_color`, whose slot is fresh (cached value hash 0) and matches the name,
two calls `set_uniform("u_color", v)` with `v = (0.0f, 0.25f, 12.587489f)` issue
no device upload at all, because the content hash of `v` is 0 as well. -/
theorem C1_counterexample :
    find_slot (fnv1a32 u_color u_color.length) u_color_program.m_uniforms
        = some ⟨0, fnv1a32 u_color u_color.length, GL_FLOAT_VEC3, 0⟩ ∧
      zero_hash_vec3.wf ∧
      (renderer_t.set_uniform_seq ⟨some u_color_program⟩ u_color
          [.v3 zero_hash_vec3, .v3 zero_hash_vec3]).map (fun x => upload_count x.2)
        = .ok 0 := by
  refine ⟨by decide, by decide, by rfl⟩

/-- C1 (amended): when the active program resolves the name to a fresh slot
(cached value hash 0) of the value's type and the content hash of the value is
not 0, the first of two identical calls `set_uniform(name, v)` issues exactly one
upload (to the slot's location), the second issues none: one upload in total.
Holds for the vec3, vec4 and mat4 overloads. -/
theorem C1_set_uniform_twice_uploads_once (r : renderer_t) (p : shader_program_t)
    (name : List Nat) (value : uniform_value) (u : uniform_t)
    (hp : r.m_program = some p)
    (hfind : find_slot (fnv1a32 name name.length) p.m_uniforms = some u)
    (hfresh : u.m_value_hash = 0)
    (hty : u.m_value_type = value.gl_type)
    (hne : fnv1a32 value.value_ptr value.sizeof ≠ 0) :
    ∃ r1 r2,
      r.set_uniform name value = .ok (r1, [value.upload u.m_location]) ∧
      r1.set_uniform name value = .ok (r2, []) ∧
      r.set_uniform_seq name [value, value] = .ok (r2, [value.upload u.m_location]) ∧
      upload_count [value.upload u.m_location] = 1 := by
  obtain ⟨r1, p1, h1, hp1, hfind1⟩ := set_uniform_found r p name value u hp hfind hty
  have hne' : u.m_value_hash ≠ fnv1a32 value.value_ptr value.sizeof := by
    rw [hfresh]; exact fun h => hne h.symm
  rw [if_pos hne'] at h1
  obtain ⟨r2, p2, h2, -, -⟩ :=
    set_uniform_found r1 p1 name value
      { u with m_value_hash := fnv1a32 value.value_ptr value.sizeof } hp1 hfind1 hty
  simp only [ne_eq, not_true_eq_false, if_false] at h2
  refine ⟨r1, r2, h1, h2, ?_, upload_count_upload value u.m_location⟩
  simpa using set_uniform_seq_pair r r1 r2 name value value _ _ h1 h2

/-- Witness for C1 (amended): the program with the single uniform `vec3 u_color`
and the value `(4.0f, 32.0f, 49.0f)`. -/
theorem C1_set_uniform_twice_uploads_once_witness :
    ∃ r1 r2,
      renderer_t.set_uniform ⟨some u_color_program⟩ u_color (.v3 colliding_vec3_a)
        = .ok (r1, [(uniform_value.v3 colliding_vec3_a).upload 0]) ∧
      r1.set_uniform u_color (.v3 colliding_vec3_a) = .ok (r2, []) ∧
      renderer_t.set_uniform_seq ⟨some u_color_program⟩ u_color
          [.v3 colliding_vec3_a, .v3 colliding_vec3_a]
        = .ok (r2, [(uniform_value.v3 colliding_vec3_a).upload 0]) ∧
      upload_count [(uniform_value.v3 colliding_vec3_a).upload 0] = 1 :=
  C1_set_uniform_twice_uploads_once ⟨some u_color_program⟩ u_color_program u_color
    (.v3 colliding_vec3_a) ⟨0, fnv1a32 u_color u_color.length, GL_FLOAT_VEC3, 0⟩
    rfl (by decide) rfl rfl (by decide)

/-- C2 (as stated) fails: on the same program, the two different values
`(4.0f, 32.0f, 49.0f)` and `(32.0f, 49.0f, 3.0f)` have the same content hash, so
`set_uniform("u_color", v1)` followed by `set_uniform("u_color", v2)` issues one
upload, not two. -/
theorem C2_counterexample :
    find_slot (fnv1a32 u_color u_color.length) u_color_program.m_uniforms
        = some ⟨0, fnv1a32 u_color u_color.length, GL_FLOAT_VEC3, 0⟩ ∧
      colliding_vec3_a ≠ colliding_vec3_b ∧
      colliding_vec3_a.value_ptr ≠ colliding_vec3_b.value_ptr ∧
      colliding_vec3_a.wf ∧ colliding_vec3_b.wf ∧
      (renderer_t.set_uniform_seq ⟨some u_color_program⟩ u_color
          [.v3 colliding_vec3_a, .v3 colliding_vec3_b]).map (fun x => upload_count x.2)
        = .ok 1 := by
  refine ⟨by decide, by decide, by decide, by decide, by decide, by rfl⟩

/-- C2 (amended): when the active program resolves the name to a slot of the
values' type, the content hash of `v1` differs from the slot's cached hash and
the content hash of `v2` differs from that of `v1`, then `set_uniform(name, v1)`
followed by `set_uniform(name, v2)` issues two device uploads, one per call, to
the slot's location. -/
theorem C2_set_uniform_two_values_upload_twice (r : renderer_t) (p : shader_program_t)
    (name : List Nat) (v1 v2 : uniform_value) (u : uniform_t)
    (hp : r.m_program = some p)
    (hfind : find_slot (fnv1a32 name name.length) p.m_uniforms = some u)
    (hty1 : u.m_value_type = v1.gl_type)
    (hty2 : u.m_value_type = v2.gl_type)
    (hcached : u.m_value_hash ≠ fnv1a32 v1.value_ptr v1.sizeof)
    (hdiff : fnv1a32 v1.value_ptr v1.sizeof ≠ fnv1a32 v2.value_ptr v2.sizeof) :
    ∃ r1 r2,
      r.set_uniform name v1 = .ok (r1, [v1.upload u.m_location]) ∧
      r1.set_uniform name v2 = .ok (r2, [v2.upload u.m_location]) ∧
      r.set_uniform_seq name [v1, v2]
        = .ok (r2, [v1.upload u.m_location, v2.upload u.m_location]) ∧
      upload_count [v1.upload u.m_location, v2.upload u.m_location] = 2 := by
  obtain ⟨r1, p1, h1, hp1, hfind1⟩ := set_uniform_found r p name v1 u hp hfind hty1
  rw [if_pos hcached] at h1
  obtain ⟨r2, p2, h2, -, -⟩ :=
    set_uniform_found r1 p1 name v2
      { u with m_value_hash := fnv1a32 v1.value_ptr v1.sizeof } hp1 hfind1 hty2
  rw [if_pos hdiff] at h2
  refine ⟨r1, r2, h1, h2, ?_, ?_⟩
  · simpa using set_uniform_seq_pair r r1 r2 name v1 v2 _ _ h1 h2
  · cases v1 <;> cases v2 <;> rfl

/-- Witness for C2 (amended): the values `(4.0f, 32.0f, 49.0f)` and
`(0.0f, 0.25f, 12.587489f)` on the program with the uniform `vec3 u_color`. -/
theorem C2_set_uniform_two_values_upload_twice_witness :
    ∃ r1 r2,
      renderer_t.set_uniform ⟨some u_color_program⟩ u_color (.v3 colliding_vec3_a)
        = .ok (r1, [(uniform_value.v3 colliding_vec3_a).upload 0]) ∧
      r1.set_uniform u_color (.v3 zero_hash_vec3)
        = .ok (r2, [(uniform_value.v3 zero_hash_vec3).upload 0]) ∧
      renderer_t.set_uniform_seq ⟨some u_color_program⟩ u_color
          [.v3 colliding_vec3_a, .v3 zero_hash_vec3]
        = .ok (r2, [(uniform_value.v3 colliding_vec3_a).upload 0,
                    (uniform_value.v3 zero_hash_vec3).upload 0]) ∧
      upload_count [(uniform_value.v3 colliding_vec3_a).upload 0,
                    (uniform_value.v3 zero_hash_vec3).upload 0] = 2 :=
  C2_set_uniform_two_values_upload_twice ⟨some u_color_program⟩ u_color_program u_color
    (.v3 colliding_vec3_a) (.v3 zero_hash_vec3)
    ⟨0, fnv1a32 u_color u_color.length, GL_FLOAT_VEC3, 0⟩
    rfl (by decide) rfl rfl (by decide) (by decide)


/-! ## Vertex layout -/

/-- The table lookup of `add` is always inside `gl_attrib_desc`, and the entry
has the element size the specification names. -/
theorem gl_attrib_desc_lookup (type : attribute_type_t) :
    ∃ desc, gl_attrib_desc[type.toNat]? = some desc ∧ desc.size = spec_element_size type := by
  cases type
  · exact ⟨⟨GL_FLOAT, 4⟩, rfl, rfl⟩
  · exact ⟨⟨GL_UNSIGNED_BYTE, 1⟩, rfl, rfl⟩

theorem spec_element_size_le (type : attribute_type_t) : spec_element_size type ≤ 4 := by
  cases type <;> decide

/-- One `add` whose assertions hold: it returns, `m_count` grows by one and
`m_stride` by `count * element_size(type)`, as long as the stride so far is at
most 64 (no wrap of the 32-bit fields). -/
theorem add_ok (l : vertex_layout_t) (type : attribute_type_t) (count : Nat) (normalized : Bool)
    (hcount : l.m_count < 4) (hc : count ≤ 4) (hstride : l.m_stride ≤ 64) :
    ∃ l', l.add type count normalized = .ok l' ∧
      l'.m_count = l.m_count + 1 ∧
      l'.m_stride = l.m_stride + count * spec_element_size type := by
  obtain ⟨desc, hdesc, hsize⟩ := gl_attrib_desc_lookup type
  have hs := spec_element_size_le type
  have hprod : count * spec_element_size type ≤ 16 := by nlinarith
  refine ⟨⟨(l.m_stride + desc.size * count % 2 ^ 32) % 2 ^ 32, (l.m_count + 1) % 2 ^ 32,
    l.m_attributes.set l.m_count
      ⟨l.m_count, desc.type, desc.size, count, if normalized then GL_TRUE else GL_FALSE⟩⟩,
    ?_, ?_, ?_⟩
  · simp [vertex_layout_t.add, max_vertex_attributes, hcount, hc, hdesc]
  · show (l.m_count + 1) % 2 ^ 32 = l.m_count + 1
    omega
  · show (l.m_stride + desc.size * count % 2 ^ 32) % 2 ^ 32 = _
    rw [hsize, Nat.mul_comm]
    omega

/-- A chain of `add` calls whose assertions hold, from a layout with `m_count`
attributes whose stride is at most 16 per attribute. -/
theorem add_all_ok : ∀ (adds : List add_args) (l : vertex_layout_t),
    l.m_count + adds.length ≤ 4 → (∀ a ∈ adds, a.count ≤ 4) → l.m_stride ≤ 16 * l.m_count →
    ∃ l', l.add_all adds = .ok l' ∧
      l'.m_count = l.m_count + adds.length ∧
      l'.m_stride = l.m_stride + spec_stride adds := by
  intro adds
  induction adds with
  | nil => intro l _ _ _; exact ⟨l, rfl, by simp, by simp [spec_stride]⟩
  | cons a rest ih =>
    intro l hlen hcounts hstride
    simp only [List.length_cons] at hlen
    have hc : a.count ≤ 4 := hcounts a (List.mem_cons_self _ _)
    obtain ⟨l1, hadd, hcount1, hstride1⟩ :=
      add_ok l a.type a.count a.normalized (by omega) hc (by omega)
    have hs := spec_element_size_le a.type
    have hprod : a.count * spec_element_size a.type ≤ 16 := by nlinarith
    obtain ⟨l2, hall, hcount2, hstride2⟩ :=
      ih l1 (by omega) (fun b hb => hcounts b (List.mem_cons_of_mem _ hb)) (by omega)
    refine ⟨l2, ?_, ?_, ?_⟩
    · simp [vertex_layout_t.add_all, hadd, hall]
    · simp only [List.length_cons]; omega
    · simp only [spec_stride, List.map_cons, List.sum_cons] at hstride2 ⊢
      omega

/-- C3: for every layout `l0` and every sequence of `add` calls applied after
`clear()` in which each call satisfies the assertions of `add` (at most 4
attributes in all, every count at most 4), the calls all return and the final
`m_stride` is the sum of `count_i * element_size(type_i)` with
`element_size(float_) = 4` and `element_size(ubyte) = 1`, and `m_count` is the
number of `add` calls. -/
theorem C3_stride_is_sum (l0 : vertex_layout_t) (adds : List add_args)
    (hlen : adds.length ≤ 4) (hcounts : ∀ a ∈ adds, a.count ≤ 4) :
    ∃ l, l0.clear.add_all adds = .ok l ∧
      l.m_stride = spec_stride adds ∧
      l.m_count = adds.length := by
  obtain ⟨l, hall, hcount, hstride⟩ :=
    add_all_ok adds l0.clear (by simpa [vertex_layout_t.clear] using hlen) hcounts
      (by simp [vertex_layout_t.clear])
  refine ⟨l, hall, ?_, ?_⟩
  · simpa [vertex_layout_t.clear] using hstride
  · simpa [vertex_layout_t.clear] using hcount

/-- Witness for C3: the layout `make_cube` builds,
`clear().add(float_, 3, false).add(float_, 2, false).add(float_, 4, false)`,
applied to a layout that held other data before. -/
theorem C3_stride_is_sum_witness :
    ∃ l, (vertex_layout_t.clear { m_stride := 99, m_count := 3 }).add_all
        [⟨.float_, 3, false⟩, ⟨.float_, 2, false⟩, ⟨.float_, 4, false⟩] = .ok l ∧
      l.m_stride = 36 ∧ l.m_count = 3 :=
  C3_stride_is_sum { m_stride := 99, m_count := 3 }
    [⟨.float_, 3, false⟩, ⟨.float_, 2, false⟩, ⟨.float_, 4, false⟩] (by decide) (by decide)


/-! ## Texture formats -/

/-- C4: for every component count other than 1, 2, 3 and 4,
`determine_pixel_format` returns `unknown`, whose table index `int(unknown)` is 5
while `gl_pixel_formats` has 4 entries; `texture_t::create` called with that
format, and `create_from_file` on an image with that component count, do not
return `false`: they read the descriptor at index 5, outside the table, whatever
the device answers. -/
theorem C4_unknown_format_reads_outside_table (components : Int)
    (h1 : components ≠ 1) (h2 : components ≠ 2) (h3 : components ≠ 3) (h4 : components ≠ 4) :
    determine_pixel_format components = .unknown ∧
      pixel_format_t.unknown.toNat = 5 ∧ gl_pixel_formats.length = 4 ∧
      gl_pixel_formats[pixel_format_t.unknown.toNat]? = none ∧
      (∀ (t : texture_t) (width height : Int) (mipmap debug : Bool) (texture_id : Nat)
          (check_error error : GLenum),
        t.create width height (determine_pixel_format components) mipmap debug
            texture_id check_error error = .error .out_of_bounds) ∧
      (∀ (t : texture_t) (width height : Int) (mipmap debug : Bool) (content : List Nat)
          (texture_id : Nat) (check_error error : GLenum),
        t.create_from_file mipmap debug (some content) (some (width, height, components))
            texture_id check_error error = .error .out_of_bounds) := by
  have hfmt : determine_pixel_format components = .unknown := by
    simp [determine_pixel_format, h1, h2, h3, h4]
  have hcreate : ∀ (t : texture_t) (width height : Int) (mipmap debug : Bool) (texture_id : Nat)
      (check_error error : GLenum),
      t.create width height pixel_format_t.unknown mipmap debug
          texture_id check_error error = .error .out_of_bounds := by
    intros; rfl
  refine ⟨hfmt, rfl, rfl, rfl, ?_, ?_⟩
  · intro t width height mipmap debug texture_id check_error error
    rw [hfmt]; exact hcreate ..
  · intro t width height mipmap debug content texture_id check_error error
    simp only [texture_t.create_from_file, hfmt, hcreate]

/-- C4 at a concrete input: an image with 5 components. -/
theorem C4_unknown_format_reads_outside_table_witness :
    determine_pixel_format 5 = .unknown ∧
      pixel_format_t.unknown.toNat = 5 ∧ gl_pixel_formats.length = 4 ∧
      gl_pixel_formats[pixel_format_t.unknown.toNat]? = none ∧
      (∀ (t : texture_t) (width height : Int) (mipmap debug : Bool) (texture_id : Nat)
          (check_error error : GLenum),
        t.create width height (determine_pixel_format 5) mipmap debug
            texture_id check_error error = .error .out_of_bounds) ∧
      (∀ (t : texture_t) (width height : Int) (mipmap debug : Bool) (content : List Nat)
          (texture_id : Nat) (check_error error : GLenum),
        t.create_from_file mipmap debug (some content) (some (width, height, 5))
            texture_id check_error error = .error .out_of_bounds) :=
  C4_unknown_format_reads_outside_table 5 (by decide) (by decide) (by decide) (by decide)

/-- C5: `determine_pixel_format` maps 1, 2, 3, 4 to `r8`, `rg8`, `rgb8`,
`rgba8`; the descriptor `gl_pixel_formats[int(format)]` of each is the matching
one (R8/RED, RG8/RG, RGB8/RGB, RGBA8/RGBA, all unsigned byte), and it is the one
`texture_t::create` passes to `glTexImage2D`. -/
theorem C5_format_derivation :
    determine_pixel_format 1 = .r8 ∧ determine_pixel_format 2 = .rg8 ∧
      determine_pixel_format 3 = .rgb8 ∧ determine_pixel_format 4 = .rgba8 ∧
      gl_pixel_formats[pixel_format_t.r8.toNat]? = some ⟨GL_R8, GL_RED, GL_UNSIGNED_BYTE⟩ ∧
      gl_pixel_formats[pixel_format_t.rg8.toNat]? = some ⟨GL_RG8, GL_RG, GL_UNSIGNED_BYTE⟩ ∧
      gl_pixel_formats[pixel_format_t.rgb8.toNat]? = some ⟨GL_RGB8, GL_RGB, GL_UNSIGNED_BYTE⟩ ∧
      gl_pixel_formats[pixel_format_t.rgba8.toNat]? = some ⟨GL_RGBA8, GL_RGBA, GL_UNSIGNED_BYTE⟩ ∧
      (∀ (t : texture_t) (width height : Int) (texture_id : Nat),
        t.create width height (determine_pixel_format 1) false false texture_id 0 GL_NO_ERROR
            = .ok (texture_id != 0, ⟨texture_id, width, height⟩,
                [.glGenTextures 1, .glBindTexture GL_TEXTURE_2D texture_id,
                 .glTexImage2D GL_TEXTURE_2D 0 GL_R8 width height 0 GL_RED GL_UNSIGNED_BYTE,
                 .glBindTexture GL_TEXTURE_2D 0, .glGetError,
                 .debug_info [texture_id, width, height, 1]]) ∧
        t.create width height (determine_pixel_format 2) false false texture_id 0 GL_NO_ERROR
            = .ok (texture_id != 0, ⟨texture_id, width, height⟩,
                [.glGenTextures 1, .glBindTexture GL_TEXTURE_2D texture_id,
                 .glTexImage2D GL_TEXTURE_2D 0 GL_RG8 width height 0 GL_RG GL_UNSIGNED_BYTE,
                 .glBindTexture GL_TEXTURE_2D 0, .glGetError,
                 .debug_info [texture_id, width, height, 1]]) ∧
        t.create width height (determine_pixel_format 3) false false texture_id 0 GL_NO_ERROR
            = .ok (texture_id != 0, ⟨texture_id, width, height⟩,
                [.glGenTextures 1, .glBindTexture GL_TEXTURE_2D texture_id,
                 .glTexImage2D GL_TEXTURE_2D 0 GL_RGB8 width height 0 GL_RGB GL_UNSIGNED_BYTE,
                 .glBindTexture GL_TEXTURE_2D 0, .glGetError,
                 .debug_info [texture_id, width, height, 1]]) ∧
        t.create width height (determine_pixel_format 4) false false texture_id 0 GL_NO_ERROR
            = .ok (texture_id != 0, ⟨texture_id, width, height⟩,
                [.glGenTextures 1, .glBindTexture GL_TEXTURE_2D texture_id,
                 .glTexImage2D GL_TEXTURE_2D 0 GL_RGBA8 width height 0 GL_RGBA GL_UNSIGNED_BYTE,
                 .glBindTexture GL_TEXTURE_2D 0, .glGetError,
                 .debug_info [texture_id, width, height, 1]])) := by
  refine ⟨rfl, rfl, rfl, rfl, rfl, rfl, rfl, rfl, ?_⟩
  intro t width height texture_id
  refine ⟨?_, ?_, ?_, ?_⟩ <;>
    simp [texture_t.create, determine_pixel_format, pixel_format_t.toNat, gl_pixel_formats,
      texture_levels, texture_t.valid, GL_NO_ERROR]


/-! ## Destruction -/

/-- C6: for each of the four wrappers, in any state: after `destroy()` the
wrapper is not valid; the commands of the first `destroy()` are one delete of the
held handle when the wrapper was valid and none when it was not; a second
`destroy()` issues no command and returns the wrapper unchanged; over both calls
at most one delete is issued. -/
theorem C6_destroy_idempotent :
    (∀ p : shader_program_t,
      p.destroy.1.valid = false ∧
      p.destroy.2 = (if p.valid then [.glDeleteProgram p.m_id] else []) ∧
      p.destroy.1.destroy = (p.destroy.1, []) ∧
      delete_count (p.destroy.2 ++ p.destroy.1.destroy.2) ≤ 1) ∧
    (∀ t : texture_t,
      t.destroy.1.valid = false ∧
      t.destroy.2 = (if t.valid then [.glDeleteTextures 1 t.m_id] else []) ∧
      t.destroy.1.destroy = (t.destroy.1, []) ∧
      delete_count (t.destroy.2 ++ t.destroy.1.destroy.2) ≤ 1) ∧
    (∀ s : sampler_state_t,
      s.destroy.1.valid = false ∧
      s.destroy.2 = (if s.valid then [.glDeleteSamplers 1 s.m_id] else []) ∧
      s.destroy.1.destroy = (s.destroy.1, []) ∧
      delete_count (s.destroy.2 ++ s.destroy.1.destroy.2) ≤ 1) ∧
    (∀ b : vertex_buffer_t,
      b.destroy.1.valid = false ∧
      b.destroy.2 = (if b.valid then [.glDeleteBuffers 1 b.m_id] else []) ∧
      b.destroy.1.destroy = (b.destroy.1, []) ∧
      delete_count (b.destroy.2 ++ b.destroy.1.destroy.2) ≤ 1) := by
  refine ⟨?_, ?_, ?_, ?_⟩
  · intro p
    refine ⟨rfl, rfl, rfl, ?_⟩
    have h2 : p.destroy.1.destroy.2 = [] := rfl
    rw [h2, List.append_nil]
    refine (List.length_filter_le _ _).trans ?_
    show (if p.valid then _ else _ : List gl_call).length ≤ 1
    split <;> simp
  · intro t
    refine ⟨rfl, rfl, rfl, ?_⟩
    have h2 : t.destroy.1.destroy.2 = [] := rfl
    rw [h2, List.append_nil]
    refine (List.length_filter_le _ _).trans ?_
    show (if t.valid then _ else _ : List gl_call).length ≤ 1
    split <;> simp
  · intro s
    refine ⟨rfl, rfl, rfl, ?_⟩
    have h2 : s.destroy.1.destroy.2 = [] := rfl
    rw [h2, List.append_nil]
    refine (List.length_filter_le _ _).trans ?_
    show (if s.valid then _ else _ : List gl_call).length ≤ 1
    split <;> simp
  · intro b
    refine ⟨rfl, rfl, rfl, ?_⟩
    have h2 : b.destroy.1.destroy.2 = [] := rfl
    rw [h2, List.append_nil]
    refine (List.length_filter_le _ _).trans ?_
    show (if b.valid then _ else _ : List gl_call).length ≤ 1
    split <;> simp

/-! ## Mip level count -/

theorem mip_levels_loop_nat : ∀ (n : Nat) (levels : Int),
    mip_levels_loop (n : Int) levels = levels + (Nat.log 2 n : Int) := by
  intro n
  induction n using Nat.strong_induction_on with
  | _ n ih =>
    intro levels
    rw [mip_levels_loop]
    by_cases h : 1 < (n : Int)
    · have hn : 2 ≤ n := by omega
      have hshift : (n : Int) >>> (1 : Nat) = ((n / 2 : Nat) : Int) := by
        rw [Int.shiftRight_eq_div_pow]; norm_num
      rw [if_pos h, hshift, ih (n / 2) (by omega)]
      have hlog : Nat.log 2 n = Nat.log 2 (n / 2) + 1 :=
        Nat.log_of_one_lt_of_le (by decide) hn
      rw [hlog]; push_cast; ring
    · have hn : n < 2 := by omega
      rw [if_neg h, Nat.log_of_lt hn]; simp

theorem mip_levels_loop_eq (value levels : Int) :
    mip_levels_loop value levels = levels + (Nat.log 2 value.toNat : Int) := by
  by_cases h : 0 ≤ value
  · obtain ⟨n, rfl⟩ := Int.eq_ofNat_of_zero_le h
    simpa using mip_levels_loop_nat n levels
  · rw [mip_levels_loop, if_neg (by omega)]
    have : value.toNat = 0 := by omega
    simp [this]

/-- C7: the mip level count `texture_t::create` computes when `mipmap` is set
is `1 + floor(log2(max(width, height)))` for every width and height (for
`max(width, height) >= 1`, and 1 when the maximum is not positive, where the loop
body never runs); the loop returns for every input, being a total function; a
256x128 texture gives 9, and that is the count `create` reports. -/
theorem C7_mip_level_count :
    (∀ width height : Int,
      texture_levels width height true = 1 + (Nat.log 2 (max width height).toNat : Int)) ∧
    texture_levels 256 128 true = 9 ∧
    (∀ (t : texture_t) (texture_id : Nat),
      t.create 256 128 .rgba8 true false texture_id 0 GL_NO_ERROR
        = .ok (texture_id != 0, ⟨texture_id, 256, 128⟩,
            [.glGenTextures 1, .glBindTexture GL_TEXTURE_2D texture_id,
             .glTexImage2D GL_TEXTURE_2D 0 GL_RGBA8 256 128 0 GL_RGBA GL_UNSIGNED_BYTE,
             .glGenerateMipmap GL_TEXTURE_2D,
             .glBindTexture GL_TEXTURE_2D 0, .glGetError,
             .debug_info [texture_id, 256, 128, 9]])) := by
  have hgen : ∀ width height : Int,
      texture_levels width height true = 1 + (Nat.log 2 (max width height).toNat : Int) := by
    intro width height
    have hmax : (if width > height then width else height) = max width height := by
      split <;> omega
    simp only [texture_levels, if_true, hmax, mip_levels_loop_eq]
  have h9 : texture_levels 256 128 true = 9 := by
    rw [hgen]
    have : (max (256 : Int) 128).toNat = 2 ^ 8 := by decide
    rw [this, Nat.log_pow (by decide)]
    rfl
  refine ⟨hgen, h9, ?_⟩
  intro t texture_id
  simp [texture_t.create, pixel_format_t.toNat, gl_pixel_formats, h9, texture_t.valid,
    GL_NO_ERROR]


/-! ## Creation failures -/

/-- C8 (as stated) fails: `create` on a program object that already holds
handle 7, with the device reporting a link failure, returns `false` and deletes
the program made for the attempt (name 3), but the object still holds handle 7
and is valid. -/
theorem C8_counterexample :
    (shader_program_t.create ⟨7, []⟩ [] [] 1 2 3 GL_FALSE [] GL_NO_ERROR).1 = false ∧
      gl_call.glDeleteProgram 3 ∈
        (shader_program_t.create ⟨7, []⟩ [] [] 1 2 3 GL_FALSE [] GL_NO_ERROR).2.2 ∧
      (shader_program_t.create ⟨7, []⟩ [] [] 1 2 3 GL_FALSE [] GL_NO_ERROR).2.1.m_id = 7 ∧
      (shader_program_t.create ⟨7, []⟩ [] [] 1 2 3 GL_FALSE [] GL_NO_ERROR).2.1.valid = true := by
  decide

/-- C8 (amended): when linking fails, `create` deletes the program handle made
for the attempt, returns `false` and leaves the object as it was, for every prior
state: `m_id` and the slot list keep their values, so the object is invalid
afterwards when it was invalid before the call. -/
theorem C8_link_failure (p : shader_program_t) (vertex_source fragment_source : List Nat)
    (vertex_shader_id fragment_shader_id shader_program_id link_status : Nat)
    (uniforms : List active_uniform) (error : GLenum)
    (hlink : link_status = GL_FALSE) :
    ∃ calls,
      p.create vertex_source fragment_source vertex_shader_id fragment_shader_id
          shader_program_id link_status uniforms error = (false, p, calls) ∧
      calls.filter gl_call.is_delete = [.glDeleteProgram shader_program_id] ∧
      (p.create vertex_source fragment_source vertex_shader_id fragment_shader_id
          shader_program_id link_status uniforms error).2.1.valid = p.valid ∧
      ((shader_program_t.create {} vertex_source fragment_source vertex_shader_id
          fragment_shader_id shader_program_id link_status uniforms error).2.1.m_id = 0) := by
  subst hlink
  refine ⟨_, rfl, ?_, rfl, rfl⟩
  simp [gl_call.is_delete]

/-- Witness for C8 (amended): a default-constructed program, link failure. -/
theorem C8_link_failure_witness :
    ∃ calls,
      shader_program_t.create {} [] [] 1 2 3 GL_FALSE [] GL_NO_ERROR = (false, {}, calls) ∧
      calls.filter gl_call.is_delete = [.glDeleteProgram 3] ∧
      (shader_program_t.create {} [] [] 1 2 3 GL_FALSE [] GL_NO_ERROR).2.1.valid
        = shader_program_t.valid {} ∧
      ((shader_program_t.create {} [] [] 1 2 3 GL_FALSE [] GL_NO_ERROR).2.1.m_id = 0) :=
  C8_link_failure {} [] [] 1 2 3 GL_FALSE [] GL_NO_ERROR rfl


/-- C9 (as stated) fails: `create` on a texture that already holds handle 7,
and on a vertex buffer that already holds handle 7, with the device reporting
`GL_OUT_OF_MEMORY` after the upload, deletes the fresh handle 9 and returns
`false`, but the wrapper's handle is 7 afterwards, not 0. -/
theorem C9_counterexample :
    texture_t.create ⟨7, 4, 4⟩ 2 2 .rgba8 false false 9 GL_NO_ERROR GL_OUT_OF_MEMORY
        = .ok (false, ⟨7, 4, 4⟩,
            [.glGenTextures 1, .glBindTexture GL_TEXTURE_2D 9,
             .glTexImage2D GL_TEXTURE_2D 0 GL_RGBA8 2 2 0 GL_RGBA GL_UNSIGNED_BYTE,
             .glBindTexture GL_TEXTURE_2D 0, .glGetError,
             .glDeleteTextures 1 9, .debug_error]) ∧
      (⟨7, 4, 4⟩ : texture_t).m_id ≠ 0 ∧
      vertex_buffer_t.create ⟨7⟩ 16 .immutable 9 GL_OUT_OF_MEMORY
        = (false, ⟨7⟩,
            [.glGenBuffers 1, .glBindBuffer GL_ARRAY_BUFFER 9,
             .glBufferData GL_ARRAY_BUFFER 16 GL_STATIC_DRAW,
             .glBindBuffer GL_ARRAY_BUFFER 0, .glGetError,
             .glDeleteBuffers 1 9, .debug_error]) ∧
      (⟨7⟩ : vertex_buffer_t).m_id ≠ 0 := by
  refine ⟨by rfl, by decide, by rfl, by decide⟩

/-- C9 (amended): in `texture_t::create` with a format of the table (`r8`,
`rg8`, `rgb8`, `rgba8`) that reaches the final error query, and in
`vertex_buffer_t::create`: when the device reports an error after the upload,
the freshly generated handle is deleted, `create` returns `false` and the
wrapper is left unchanged (so its handle is 0 afterwards when it was 0 before);
when no error is reported and the generated handle is not 0, `create` returns
`true` and the wrapper holds the new handle (and, for textures, the given width
and height). -/
theorem C9_create_error_handling (t : texture_t) (b : vertex_buffer_t) (width height : Int)
    (format : pixel_format_t) (mipmap debug : Bool) (size : Nat) (usage : usage_hint_t)
    (id : Nat) (check_error error : GLenum)
    (hformat : format ≠ .count ∧ format ≠ .unknown)
    (hcheck : ¬ (mipmap = true ∧ debug = true ∧ check_error ≠ GL_NO_ERROR))
    (hid : id ≠ 0) :
    (error ≠ GL_NO_ERROR →
      (t.create width height format mipmap debug id check_error error).map
          (fun r => (r.1, r.2.1, r.2.2.filter gl_call.is_delete))
        = .ok (false, t, [.glDeleteTextures 1 id]) ∧
      (b.create size usage id error).1 = false ∧
      (b.create size usage id error).2.1 = b ∧
      (b.create size usage id error).2.2.filter gl_call.is_delete = [.glDeleteBuffers 1 id]) ∧
    (error = GL_NO_ERROR →
      (t.create width height format mipmap debug id check_error error).map
          (fun r => (r.1, r.2.1, r.2.2.filter gl_call.is_delete))
        = .ok (true, ⟨id, width, height⟩, []) ∧
      (b.create size usage id error).1 = true ∧
      (b.create size usage id error).2.1 = ⟨id⟩ ∧
      (b.create size usage id error).2.2.filter gl_call.is_delete = []) := by
  obtain ⟨desc, hdesc⟩ : ∃ desc, gl_pixel_formats[format.toNat]? = some desc := by
    cases format
    · exact ⟨_, rfl⟩
    · exact ⟨_, rfl⟩
    · exact ⟨_, rfl⟩
    · exact ⟨_, rfl⟩
    · exact absurd rfl hformat.1
    · exact absurd rfl hformat.2
  have hcheck' : ¬ (mipmap = true ∧ debug = true ∧ ¬ check_error = GL_NO_ERROR) := hcheck
  have hvalid : (id != 0) = true := by simpa using hid
  constructor
  · intro herr
    refine ⟨?_, ?_, ?_, ?_⟩
    · simp only [texture_t.create, hdesc, ne_eq, hcheck', if_false, herr, not_false_eq_true,
        if_true, Except.map]
      cases mipmap <;> cases debug <;> simp [gl_call.is_delete]
    all_goals simp [vertex_buffer_t.create, herr, gl_call.is_delete]
  · intro herr
    refine ⟨?_, ?_, ?_, ?_⟩
    · simp only [texture_t.create, hdesc, ne_eq, hcheck', if_false, herr, not_true_eq_false,
        texture_t.valid, hvalid, Except.map]
      cases mipmap <;> cases debug <;> simp [gl_call.is_delete]
    all_goals simp [vertex_buffer_t.create, herr, gl_call.is_delete, vertex_buffer_t.valid, hid]

/-- Witness for C9 (amended): default-constructed wrappers, a 2x2 `rgba8`
texture and a 16-byte buffer, generated handle 9; first with the device
reporting `GL_OUT_OF_MEMORY`, then with the device reporting no error. -/
theorem C9_create_error_handling_witness :
    ((texture_t.create {} 2 2 .rgba8 false false 9 GL_NO_ERROR GL_OUT_OF_MEMORY).map
          (fun r => (r.1, r.2.1, r.2.2.filter gl_call.is_delete))
        = .ok (false, {}, [.glDeleteTextures 1 9]) ∧
      (vertex_buffer_t.create {} 16 .immutable 9 GL_OUT_OF_MEMORY).1 = false ∧
      (vertex_buffer_t.create {} 16 .immutable 9 GL_OUT_OF_MEMORY).2.1 = {} ∧
      (vertex_buffer_t.create {} 16 .immutable 9 GL_OUT_OF_MEMORY).2.2.filter gl_call.is_delete
        = [.glDeleteBuffers 1 9]) ∧
    ((texture_t.create {} 2 2 .rgba8 false false 9 GL_NO_ERROR GL_NO_ERROR).map
          (fun r => (r.1, r.2.1, r.2.2.filter gl_call.is_delete))
        = .ok (true, ⟨9, 2, 2⟩, []) ∧
      (vertex_buffer_t.create {} 16 .immutable 9 GL_NO_ERROR).1 = true ∧
      (vertex_buffer_t.create {} 16 .immutable 9 GL_NO_ERROR).2.1 = ⟨9⟩ ∧
      (vertex_buffer_t.create {} 16 .immutable 9 GL_NO_ERROR).2.2.filter gl_call.is_delete
        = []) :=
  ⟨(C9_create_error_handling {} {} 2 2 .rgba8 false false 16 .immutable 9 GL_NO_ERROR
      GL_OUT_OF_MEMORY (by decide) (by decide) (by decide)).1 (by decide),
   (C9_create_error_handling {} {} 2 2 .rgba8 false false 16 .immutable 9 GL_NO_ERROR
      GL_NO_ERROR (by decide) (by decide) (by decide)).2 rfl⟩


/-! ## Uniform introspection -/

/-- The introspection loop, from any loop state: the slots appended are those of
the non-sampler uniforms in order, and the `glUniform1i` commands bind the
sampler uniforms, in order, to consecutive units starting at `sampler_count`. -/
theorem introspect_spec (m_id : Nat) :
    ∀ (uniforms : List active_uniform) (index sampler_count : Nat) (m_uniforms : List uniform_t),
      (shader_program_t.introspect m_id uniforms index (sampler_count : Int) m_uniforms).1
          = m_uniforms ++
            (uniforms.filter fun u => u.uniform_type != GL_SAMPLER_2D).map
              (fun u => ⟨u.location, fnv1a32 u.uniform_name u.uniform_name.length,
                         u.uniform_type, 0⟩) ∧
      (shader_program_t.introspect m_id uniforms index (sampler_count : Int) m_uniforms).2.filter
            gl_call.is_glUniform1i
          = ((uniforms.filter fun u => u.uniform_type == GL_SAMPLER_2D).enumFrom
                sampler_count).map
              (fun ku => gl_call.glUniform1i ku.2.location (ku.1 : Int)) := by
  intro uniforms
  induction uniforms with
  | nil => intro index sampler_count m_uniforms; simp [shader_program_t.introspect]
  | cons u rest ih =>
    intro index sampler_count m_uniforms
    by_cases hs : u.uniform_type = GL_SAMPLER_2D
    · have h := ih (index + 1) (sampler_count + 1) m_uniforms
      push_cast at h
      simp only [shader_program_t.introspect, hs, if_true]
      refine ⟨by simpa [hs] using h.1, ?_⟩
      simp [hs, List.enumFrom_cons, gl_call.is_glUniform1i, h.2]
    · have h := ih (index + 1) sampler_count
        (m_uniforms ++ [⟨u.location, fnv1a32 u.uniform_name u.uniform_name.length,
                         u.uniform_type, 0⟩])
      simp only [shader_program_t.introspect, hs, if_false]
      refine ⟨by simpa [hs] using h.1, ?_⟩
      simp [hs, gl_call.is_glUniform1i, h.2]

/-- C10: `create` on a default-constructed program, with the device linking
the program (non-zero name), reporting the active uniforms `uniforms` and no
error, returns `true`; the `glUniform1i` commands it issues bind the `k`-th
2D-sampler uniform (in enumeration order, from 0) to unit `k`; the slot list
is exactly the non-sampler uniforms in enumeration order, each with its
location, the hash `fnv1a32` of its name, its type and value hash 0. -/
theorem C10_uniform_introspection (vertex_source fragment_source : List Nat)
    (vertex_shader_id fragment_shader_id shader_program_id link_status : Nat)
    (uniforms : List active_uniform) (error : GLenum)
    (hlink : link_status ≠ GL_FALSE) (herr : error = GL_NO_ERROR)
    (hid : shader_program_id ≠ 0) :
    (shader_program_t.create {} vertex_source fragment_source vertex_shader_id
        fragment_shader_id shader_program_id link_status uniforms error).1 = true ∧
    (shader_program_t.create {} vertex_source fragment_source vertex_shader_id
        fragment_shader_id shader_program_id link_status uniforms error).2.1
      = ⟨shader_program_id,
          (uniforms.filter fun u => u.uniform_type != GL_SAMPLER_2D).map
            (fun u => ⟨u.location, fnv1a32 u.uniform_name u.uniform_name.length,
                       u.uniform_type, 0⟩)⟩ ∧
    (shader_program_t.create {} vertex_source fragment_source vertex_shader_id
        fragment_shader_id shader_program_id link_status uniforms error).2.2.filter
          gl_call.is_glUniform1i
      = ((uniforms.filter fun u => u.uniform_type == GL_SAMPLER_2D).enum).map
          (fun ku => gl_call.glUniform1i ku.2.location (ku.1 : Int)) := by
  have h := introspect_spec shader_program_id uniforms 0 0 []
  simp only [Nat.cast_zero, List.nil_append] at h
  have hvalid : (shader_program_id != 0) = true := by simpa using hid
  subst herr
  refine ⟨?_, ?_, ?_⟩
  · simp [shader_program_t.create, hlink, shader_program_t.valid, hid]
  · simp [shader_program_t.create, hlink, h.1]
  · simp [shader_program_t.create, hlink, gl_call.is_glUniform1i, h.2, List.enum]

/-- Witness for C10: a program with the active uniforms `sampler2D` (location
5), `vec3 u_color` (location 0), `sampler2D` (location 6), `mat4` (location 1). -/
theorem C10_uniform_introspection_witness :
    (shader_program_t.create {} [] [] 1 2 3 GL_TRUE
        [⟨[97], GL_SAMPLER_2D, 5⟩, ⟨u_color, GL_FLOAT_VEC3, 0⟩, ⟨[98], GL_SAMPLER_2D, 6⟩,
         ⟨[99], GL_FLOAT_MAT4, 1⟩] GL_NO_ERROR).1 = true ∧
    (shader_program_t.create {} [] [] 1 2 3 GL_TRUE
        [⟨[97], GL_SAMPLER_2D, 5⟩, ⟨u_color, GL_FLOAT_VEC3, 0⟩, ⟨[98], GL_SAMPLER_2D, 6⟩,
         ⟨[99], GL_FLOAT_MAT4, 1⟩] GL_NO_ERROR).2.1
      = ⟨3, [⟨0, fnv1a32 u_color 7, GL_FLOAT_VEC3, 0⟩, ⟨1, fnv1a32 [99] 1, GL_FLOAT_MAT4, 0⟩]⟩ ∧
    (shader_program_t.create {} [] [] 1 2 3 GL_TRUE
        [⟨[97], GL_SAMPLER_2D, 5⟩, ⟨u_color, GL_FLOAT_VEC3, 0⟩, ⟨[98], GL_SAMPLER_2D, 6⟩,
         ⟨[99], GL_FLOAT_MAT4, 1⟩] GL_NO_ERROR).2.2.filter gl_call.is_glUniform1i
      = [.glUniform1i 5 0, .glUniform1i 6 1] :=
  C10_uniform_introspection [] [] 1 2 3 GL_TRUE
    [⟨[97], GL_SAMPLER_2D, 5⟩, ⟨u_color, GL_FLOAT_VEC3, 0⟩, ⟨[98], GL_SAMPLER_2D, 6⟩,
     ⟨[99], GL_FLOAT_MAT4, 1⟩] GL_NO_ERROR (by decide) rfl (by decide)


/-! ## Name hashes -/

/-- In a slot list whose name hashes are pairwise distinct, the scan for the
name hash of a slot of the list finds that slot. -/
theorem find_slot_of_nodup : ∀ (slots : List uniform_t) (s : uniform_t),
    s ∈ slots → (slots.map fun t => t.m_name_hash).Nodup →
    find_slot s.m_name_hash slots = some s := by
  intro slots
  induction slots with
  | nil => intro s hs; simp at hs
  | cons t rest ih =>
    intro s hs hnodup
    rw [List.map_cons, List.nodup_cons] at hnodup
    by_cases ht : t.m_name_hash = s.m_name_hash
    · have hst : s = t := by
        rcases List.mem_cons.mp hs with h | h
        · exact h
        · exact absurd (ht ▸ List.mem_map_of_mem (fun t => t.m_name_hash) h) hnodup.1
      subst hst
      simp [find_slot, List.find?_cons]
    · have hrest : s ∈ rest := by
        rcases List.mem_cons.mp hs with h | h
        · exact absurd (h ▸ rfl) ht
        · exact h
      have := ih s hrest hnodup.2
      simpa [find_slot, List.find?_cons, ht] using this

/-- C11 (as stated) fails: the uniforms `vec3 costarring` and `vec3 liquid`
have different names with the same `fnv1a32` hash, so `create` leaves two slots
with equal `m_name_hash`, and `set_uniform("liquid", v)` uploads to location 0,
the slot introspected from `costarring`, not to location 1. -/
theorem C11_counterexample :
    costarring ≠ liquid ∧
      colliding_names_program.m_uniforms
        = [⟨0, 1582148253, GL_FLOAT_VEC3, 0⟩, ⟨1, 1582148253, GL_FLOAT_VEC3, 0⟩] ∧
      fnv1a32 liquid liquid.length = 1582148253 ∧
      (renderer_t.set_uniform ⟨some colliding_names_program⟩ liquid
          (.v3 colliding_vec3_a)).map (fun x => x.2)
        = .ok [.glUniform3fv 0 1 colliding_vec3_a.value_ptr] := by
  refine ⟨by decide, by decide, by decide, by rfl⟩

/-- C11 (amended): after `create` on a default-constructed program (link
succeeded, non-zero program name, no device error), when the names of the active
non-sampler uniforms have pairwise distinct `fnv1a32` hashes, no two slots of
`m_uniforms` have the same `m_name_hash`; the scan of `set_uniform` for the name
of such a uniform finds the slot introspected from it, and `set_uniform` with
that name uploads (when the content hash is not 0) to that uniform's location. -/
theorem C11_unique_name_hashes (vertex_source fragment_source : List Nat)
    (vertex_shader_id fragment_shader_id shader_program_id link_status : Nat)
    (uniforms : List active_uniform) (error : GLenum)
    (hlink : link_status ≠ GL_FALSE) (herr : error = GL_NO_ERROR)
    (hid : shader_program_id ≠ 0)
    (hdistinct : ((uniforms.filter fun u => u.uniform_type != GL_SAMPLER_2D).map
        fun u => fnv1a32 u.uniform_name u.uniform_name.length).Nodup) :
    (shader_program_t.create {} vertex_source fragment_source vertex_shader_id
        fragment_shader_id shader_program_id link_status uniforms error).1 = true ∧
    ((shader_program_t.create {} vertex_source fragment_source vertex_shader_id
        fragment_shader_id shader_program_id link_status uniforms error).2.1.m_uniforms.map
          fun s => s.m_name_hash).Nodup ∧
    ∀ u ∈ uniforms, u.uniform_type ≠ GL_SAMPLER_2D →
      find_slot (fnv1a32 u.uniform_name u.uniform_name.length)
          (shader_program_t.create {} vertex_source fragment_source vertex_shader_id
            fragment_shader_id shader_program_id link_status uniforms error).2.1.m_uniforms
        = some ⟨u.location, fnv1a32 u.uniform_name u.uniform_name.length, u.uniform_type, 0⟩ ∧
      ∀ value : uniform_value, u.uniform_type = value.gl_type →
        (renderer_t.set_uniform
            ⟨some (shader_program_t.create {} vertex_source fragment_source vertex_shader_id
              fragment_shader_id shader_program_id link_status uniforms error).2.1⟩
            u.uniform_name value).map (fun x => x.2)
          = .ok (if 0 ≠ fnv1a32 value.value_ptr value.sizeof
                 then [value.upload u.location] else []) := by
  subst herr
  have htrue : (shader_program_t.create {} vertex_source fragment_source vertex_shader_id
        fragment_shader_id shader_program_id link_status uniforms GL_NO_ERROR).1 = true := by
    simp [shader_program_t.create, hlink, shader_program_t.valid, hid]
  have hslots : (shader_program_t.create {} vertex_source fragment_source vertex_shader_id
        fragment_shader_id shader_program_id link_status uniforms GL_NO_ERROR).2.1.m_uniforms
      = (uniforms.filter fun u => u.uniform_type != GL_SAMPLER_2D).map
          (fun u => ⟨u.location, fnv1a32 u.uniform_name u.uniform_name.length,
                     u.uniform_type, 0⟩) := by
    have h := introspect_spec shader_program_id uniforms 0 0 []
    simp only [Nat.cast_zero, List.nil_append] at h
    simp [shader_program_t.create, hlink, h.1]
  have hnodup : ((shader_program_t.create {} vertex_source fragment_source vertex_shader_id
        fragment_shader_id shader_program_id link_status uniforms GL_NO_ERROR).2.1.m_uniforms.map
          fun s => s.m_name_hash).Nodup := by
    rw [hslots, List.map_map]
    exact hdistinct
  refine ⟨htrue, hnodup, ?_⟩
  intro u hu hty
  have hmem : (⟨u.location, fnv1a32 u.uniform_name u.uniform_name.length, u.uniform_type, 0⟩
      : uniform_t) ∈ (shader_program_t.create {} vertex_source fragment_source vertex_shader_id
        fragment_shader_id shader_program_id link_status uniforms GL_NO_ERROR).2.1.m_uniforms := by
    rw [hslots]
    refine List.mem_map.mpr ⟨u, ?_, rfl⟩
    simp [List.mem_filter, hu, hty]
  have hfind := find_slot_of_nodup _ _ hmem hnodup
  refine ⟨hfind, ?_⟩
  intro value hval
  obtain ⟨r', p', hset, -, -⟩ :=
    set_uniform_found
      ⟨some (shader_program_t.create {} vertex_source fragment_source vertex_shader_id
        fragment_shader_id shader_program_id link_status uniforms GL_NO_ERROR).2.1⟩ _
      u.uniform_name value _ rfl hfind hval
  rw [hset]
  rfl

/-- Witness for C11 (amended): a program with the active uniforms `vec3
u_color` (location 0), a `sampler2D` (location 5) and `vec3 liquid`
(location 1). -/
theorem C11_unique_name_hashes_witness :
    (shader_program_t.create {} [] [] 1 2 3 GL_TRUE
        [⟨u_color, GL_FLOAT_VEC3, 0⟩, ⟨[97], GL_SAMPLER_2D, 5⟩, ⟨liquid, GL_FLOAT_VEC3, 1⟩]
        GL_NO_ERROR).1 = true ∧
    ((shader_program_t.create {} [] [] 1 2 3 GL_TRUE
        [⟨u_color, GL_FLOAT_VEC3, 0⟩, ⟨[97], GL_SAMPLER_2D, 5⟩, ⟨liquid, GL_FLOAT_VEC3, 1⟩]
        GL_NO_ERROR).2.1.m_uniforms.map fun s => s.m_name_hash).Nodup ∧
    ∀ u ∈ ([⟨u_color, GL_FLOAT_VEC3, 0⟩, ⟨[97], GL_SAMPLER_2D, 5⟩, ⟨liquid, GL_FLOAT_VEC3, 1⟩]
        : List active_uniform), u.uniform_type ≠ GL_SAMPLER_2D →
      find_slot (fnv1a32 u.uniform_name u.uniform_name.length)
          (shader_program_t.create {} [] [] 1 2 3 GL_TRUE
            [⟨u_color, GL_FLOAT_VEC3, 0⟩, ⟨[97], GL_SAMPLER_2D, 5⟩, ⟨liquid, GL_FLOAT_VEC3, 1⟩]
            GL_NO_ERROR).2.1.m_uniforms
        = some ⟨u.location, fnv1a32 u.uniform_name u.uniform_name.length, u.uniform_type, 0⟩ ∧
      ∀ value : uniform_value, u.uniform_type = value.gl_type →
        (renderer_t.set_uniform
            ⟨some (shader_program_t.create {} [] [] 1 2 3 GL_TRUE
              [⟨u_color, GL_FLOAT_VEC3, 0⟩, ⟨[97], GL_SAMPLER_2D, 5⟩, ⟨liquid, GL_FLOAT_VEC3, 1⟩]
              GL_NO_ERROR).2.1⟩
            u.uniform_name value).map (fun x => x.2)
          = .ok (if 0 ≠ fnv1a32 value.value_ptr value.sizeof
                 then [value.upload u.location] else []) :=
  C11_unique_name_hashes [] [] 1 2 3 GL_TRUE
    [⟨u_color, GL_FLOAT_VEC3, 0⟩, ⟨[97], GL_SAMPLER_2D, 5⟩, ⟨liquid, GL_FLOAT_VEC3, 1⟩]
    GL_NO_ERROR (by decide) rfl (by decide) (by decide)


/-! ## Destroy and the slot list; unmatched names -/

/-- C12: `shader_program_t::destroy()` sets `m_id` to 0 but leaves `m_uniforms`
as it was, for every program; on the valid program with the single slot for
`vec3 u_color` the slot list is not empty afterwards.  A later `create` on the
same object appends to the stale list, and `set_uniform("u_color", v)` then
resolves to the stale slot: with `v` cached there before the `destroy`, the new
program is never sent the value. -/
theorem C12_destroy_keeps_slots :
    (∀ p : shader_program_t, p.destroy.1.m_id = 0 ∧ p.destroy.1.m_uniforms = p.m_uniforms) ∧
      u_color_program.valid = true ∧
      u_color_program.destroy
        = (⟨0, [⟨0, fnv1a32 u_color 7, GL_FLOAT_VEC3, 0⟩]⟩, [.glDeleteProgram 3]) ∧
      u_color_program.destroy.1.m_uniforms ≠ [] ∧
      (shader_program_t.create
          (shader_program_t.destroy
            ⟨3, [⟨0, fnv1a32 u_color 7, GL_FLOAT_VEC3,
                  fnv1a32 colliding_vec3_a.value_ptr 12⟩]⟩).1
          [] [] 4 5 6 GL_TRUE [⟨u_color, GL_FLOAT_VEC3, 4⟩] GL_NO_ERROR).2.1
        = ⟨6, [⟨0, fnv1a32 u_color 7, GL_FLOAT_VEC3, fnv1a32 colliding_vec3_a.value_ptr 12⟩,
               ⟨4, fnv1a32 u_color 7, GL_FLOAT_VEC3, 0⟩]⟩ ∧
      (renderer_t.set_uniform
          ⟨some ⟨6, [⟨0, fnv1a32 u_color 7, GL_FLOAT_VEC3, fnv1a32 colliding_vec3_a.value_ptr 12⟩,
                     ⟨4, fnv1a32 u_color 7, GL_FLOAT_VEC3, 0⟩]⟩⟩
          u_color (.v3 colliding_vec3_a)).map (fun x => x.2) = .ok [] := by
  refine ⟨fun p => ⟨rfl, rfl⟩, by decide, by decide, by decide, by decide, by rfl⟩

/-- When no slot has the name hash, the scan leaves the slot list as it is and
issues nothing. -/
theorem set_uniform_loop_no_match (name_hash : Nat) (value : uniform_value) :
    ∀ uniforms : List uniform_t, (∀ s ∈ uniforms, s.m_name_hash ≠ name_hash) →
      set_uniform_loop name_hash value uniforms = .ok (uniforms, []) := by
  intro uniforms
  induction uniforms with
  | nil => intro _; rfl
  | cons s rest ih =>
    intro h
    have hs : s.m_name_hash ≠ name_hash := h s (List.mem_cons_self _ _)
    have hrest := ih fun t ht => h t (List.mem_cons_of_mem _ ht)
    simp [set_uniform_loop, hs, hrest]

/-- C13: when no slot of the active program has name hash `fnv1a32(name)`,
`set_uniform(name, value)` returns without issuing any device command and
leaves the renderer's program, with its slot list and every cached value hash,
unchanged; for the vec3, vec4 and mat4 overloads alike. -/
theorem C13_set_uniform_no_match (r : renderer_t) (p : shader_program_t) (name : List Nat)
    (value : uniform_value)
    (hp : r.m_program = some p)
    (hnone : ∀ s ∈ p.m_uniforms, s.m_name_hash ≠ fnv1a32 name name.length) :
    r.set_uniform name value = .ok (r, []) := by
  have hloop := set_uniform_loop_no_match (fnv1a32 name name.length) value p.m_uniforms hnone
  cases r with
  | mk m_program =>
    simp only at hp
    subst hp
    simp [renderer_t.set_uniform, hloop]

/-- Witness for C13: the name `liquid` on the program whose only slot is that
of `u_color`, with a `mat4` value. -/
theorem C13_set_uniform_no_match_witness :
    renderer_t.set_uniform ⟨some u_color_program⟩ liquid
        (.m4 ⟨⟨0, 0, 0, 0⟩, ⟨0, 0, 0, 0⟩, ⟨0, 0, 0, 0⟩, ⟨0, 0, 0, 0⟩⟩)
      = .ok (⟨some u_color_program⟩, []) :=
  C13_set_uniform_no_match ⟨some u_color_program⟩ u_color_program liquid
    (.m4 ⟨⟨0, 0, 0, 0⟩, ⟨0, 0, 0, 0⟩, ⟨0, 0, 0, 0⟩, ⟨0, 0, 0, 0⟩⟩) rfl (by decide)


/-! ## Vertex layout: the contract of `add` -/

/-- The result of `add` in closed form. -/
theorem add_eq (l : vertex_layout_t) (type : attribute_type_t) (count : Nat) (normalized : Bool) :
    l.add type count normalized =
      if 4 ≤ l.m_count ∨ 4 < count then .error .assertion_failed
      else .ok ⟨(l.m_stride + count * spec_element_size type) % 2 ^ 32, l.m_count + 1,
                l.m_attributes.set l.m_count (spec_attribute l.m_count ⟨type, count, normalized⟩)⟩ := by
  by_cases h1 : l.m_count < 4
  · by_cases h2 : count ≤ 4
    · have hcond : ¬ (4 ≤ l.m_count ∨ 4 < count) := by omega
      have hmod : (l.m_count + 1) % 2 ^ 32 = l.m_count + 1 := by omega
      rw [if_neg hcond]
      cases type <;> cases normalized <;>
        simp [vertex_layout_t.add, max_vertex_attributes, h1, h2, gl_attrib_desc,
          attribute_type_t.toNat, spec_attribute, spec_type_tag, spec_element_size, hmod,
          GL_TRUE, GL_FALSE, Nat.mul_comm] <;> omega
    · have hcond : 4 ≤ l.m_count ∨ 4 < count := by omega
      rw [if_pos hcond]
      simp [vertex_layout_t.add, max_vertex_attributes, h1, h2]
  · have hcond : 4 ≤ l.m_count ∨ 4 < count := by omega
    rw [if_pos hcond]
    simp [vertex_layout_t.add, max_vertex_attributes, h1]

/-- C14: `add(type, count, normalized)` fails its assertion exactly when the
layout already holds 4 (or more) attributes or `count > 4`; otherwise it returns
the layout with one attribute descriptor written at position `m_count` (index =
previous `m_count`, the type's device tag and element size, `count`, the
normalized flag), `m_count` incremented by one and `m_stride` advanced by
`count * element_size(type)` in 32-bit unsigned arithmetic (exactly, when the
sum fits 32 bits).  The one array cell written is at an index below 4; the array
keeps its length and all other cells. -/
theorem C14_add_contract (l : vertex_layout_t) (type : attribute_type_t) (count : Nat)
    (normalized : Bool) :
    (l.add type count normalized = .error .assertion_failed ↔ (4 ≤ l.m_count ∨ 4 < count)) ∧
    l.add type count normalized =
      (if 4 ≤ l.m_count ∨ 4 < count then .error .assertion_failed
       else .ok ⟨(l.m_stride + count * spec_element_size type) % 2 ^ 32, l.m_count + 1,
                 l.m_attributes.set l.m_count
                   (spec_attribute l.m_count ⟨type, count, normalized⟩)⟩) ∧
    (∀ l', l.add type count normalized = .ok l' →
      l.m_count < max_vertex_attributes ∧
      l'.m_count = l.m_count + 1 ∧
      (l.m_stride + count * spec_element_size type < 2 ^ 32 →
        l'.m_stride = l.m_stride + count * spec_element_size type) ∧
      l'.m_attributes.length = l.m_attributes.length ∧
      (l.m_attributes.length = max_vertex_attributes →
        l'.m_attributes[l.m_count]?
          = some (spec_attribute l.m_count ⟨type, count, normalized⟩)) ∧
      ∀ i, i ≠ l.m_count → l'.m_attributes[i]? = l.m_attributes[i]?) := by
  have heq := add_eq l type count normalized
  refine ⟨?_, heq, ?_⟩
  · rw [heq]
    by_cases hcond : 4 ≤ l.m_count ∨ 4 < count
    · simp [hcond]
    · simp [hcond]
  · intro l' hl'
    rw [heq] at hl'
    by_cases hcond : 4 ≤ l.m_count ∨ 4 < count
    · simp [hcond] at hl'
    · rw [if_neg hcond] at hl'
      have hl : l' = ⟨(l.m_stride + count * spec_element_size type) % 2 ^ 32, l.m_count + 1,
          l.m_attributes.set l.m_count (spec_attribute l.m_count ⟨type, count, normalized⟩)⟩ := by
        injection hl' with h; exact h.symm
      subst hl
      have hlt : l.m_count < 4 := by omega
      refine ⟨hlt, rfl, ?_, ?_, ?_, ?_⟩
      · intro hfit
        exact Nat.mod_eq_of_lt hfit
      · simp
      · intro hlen
        simp only [max_vertex_attributes] at hlen
        simp [List.getElem?_set, hlen, hlt]
      · intro i hi
        simp [List.getElem?_set, Ne.symm hi]


/-! ## Vertex layout: stored attributes -/

/-- A chain of `add` calls whose assertions hold, on a layout with a 4-entry
attribute array: the calls return, the entries below the old `m_count` are kept,
and the entries from the old `m_count` on are the descriptors of the calls. -/
theorem add_all_attributes : ∀ (adds : List add_args) (l : vertex_layout_t),
    l.m_count + adds.length ≤ 4 → (∀ a ∈ adds, a.count ≤ 4) → l.m_stride ≤ 16 * l.m_count →
    l.m_attributes.length = 4 →
    ∃ l', l.add_all adds = .ok l' ∧
      l'.m_count = l.m_count + adds.length ∧
      l'.m_stride = l.m_stride + spec_stride adds ∧
      l'.m_attributes.length = 4 ∧
      (∀ i, i < l.m_count → l'.m_attributes[i]? = l.m_attributes[i]?) ∧
      (∀ i a, adds[i]? = some a →
        l'.m_attributes[l.m_count + i]? = some (spec_attribute (l.m_count + i) a)) := by
  intro adds
  induction adds with
  | nil =>
    intro l _ _ _ harray
    exact ⟨l, rfl, by simp, by simp [spec_stride], harray, fun _ _ => rfl, by simp⟩
  | cons a rest ih =>
    intro l hlen hcounts hstride harray
    simp only [List.length_cons] at hlen
    have hc : a.count ≤ 4 := hcounts a (List.mem_cons_self _ _)
    have hs := spec_element_size_le a.type
    have hprod : a.count * spec_element_size a.type ≤ 16 := by nlinarith
    have hcond : ¬ (4 ≤ l.m_count ∨ 4 < a.count) := by omega
    have hadd := add_eq l a.type a.count a.normalized
    rw [if_neg hcond, Nat.mod_eq_of_lt (by omega)] at hadd
    obtain ⟨l2, hall, hcount2, hstride2, harray2, hkeep2, hnew2⟩ :=
      ih ⟨l.m_stride + a.count * spec_element_size a.type, l.m_count + 1,
          l.m_attributes.set l.m_count (spec_attribute l.m_count ⟨a.type, a.count, a.normalized⟩)⟩
        (by simp only; omega) (fun b hb => hcounts b (List.mem_cons_of_mem _ hb))
        (by simp only; omega) (by simpa using harray)
    simp only at hcount2 hstride2 hkeep2 hnew2
    refine ⟨l2, ?_, ?_, ?_, harray2, ?_, ?_⟩
    · simp [vertex_layout_t.add_all, hadd, hall]
    · simp only [List.length_cons]; omega
    · simp only [spec_stride, List.map_cons, List.sum_cons] at hstride2 ⊢
      omega
    · intro i hi
      rw [hkeep2 i (by omega)]
      simp [List.getElem?_set, Nat.ne_of_gt hi]
    · intro i b hb
      cases i with
      | zero =>
        simp only [List.getElem?_cons_zero, Option.some.injEq] at hb
        subst hb
        rw [Nat.add_zero, hkeep2 l.m_count (by omega)]
        have hlt : l.m_count < l.m_attributes.length := by omega
        simp [List.getElem?_set, hlt]
      | succ j =>
        simp only [List.getElem?_cons_succ] at hb
        have := hnew2 j b hb
        have hidx : l.m_count + (j + 1) = l.m_count + 1 + j := by omega
        rw [hidx]
        exact this

/-- C20 (as stated) fails: `clear().add(float_, 0, false)` passes both
assertions of `add` and stores an attribute whose element count is 0. -/
theorem C20_counterexample :
    (vertex_layout_t.clear {}).add_all [⟨.float_, 0, false⟩]
        = .ok ⟨0, 1, [⟨0, GL_FLOAT, 4, 0, 0⟩, {}, {}, {}]⟩ ∧
      ¬ (1 ≤ (⟨0, GL_FLOAT, 4, 0, 0⟩ : attribute_t).count) := by
  refine ⟨by rfl, by decide⟩

/-- C20 (amended): for every layout reached from `clear()` by `add` calls that
pass the assertions of `add`, each of the first `m_count` attributes has an
element count of at most 4, namely the count given to the `add` call that wrote
it (a count of 0 passes the assertions and is stored); so each count lies
between 1 and 4 when every call was given a count of at least 1. -/
theorem C20_attribute_counts (l0 : vertex_layout_t) (adds : List add_args)
    (harray : l0.m_attributes.length = max_vertex_attributes)
    (hlen : adds.length ≤ 4) (hcounts : ∀ a ∈ adds, a.count ≤ 4) :
    ∃ l, l0.clear.add_all adds = .ok l ∧
      (∀ i, i < l.m_count → ∃ a b, l.m_attributes[i]? = some a ∧ adds[i]? = some b ∧
        a.count = b.count ∧ a.count ≤ 4) ∧
      ((∀ b ∈ adds, 1 ≤ b.count) →
        ∀ i, i < l.m_count → ∃ a, l.m_attributes[i]? = some a ∧ 1 ≤ a.count ∧ a.count ≤ 4) := by
  obtain ⟨l, hall, hcount, -, -, -, hnew⟩ :=
    add_all_attributes adds l0.clear (by simpa [vertex_layout_t.clear] using hlen) hcounts
      (by simp [vertex_layout_t.clear]) (by simpa [vertex_layout_t.clear] using harray)
  have hcount' : l.m_count = adds.length := by simpa [vertex_layout_t.clear] using hcount
  have hentry : ∀ i, i < l.m_count → ∃ b, adds[i]? = some b ∧ b ∈ adds ∧
      l.m_attributes[i]? = some (spec_attribute i b) := by
    intro i hi
    have hi' : i < adds.length := by omega
    refine ⟨adds[i], List.getElem?_eq_getElem hi', List.getElem_mem hi', ?_⟩
    have := hnew i adds[i] (List.getElem?_eq_getElem hi')
    simpa [vertex_layout_t.clear] using this
  refine ⟨l, hall, ?_, ?_⟩
  · intro i hi
    obtain ⟨b, hb, hmem, hattr⟩ := hentry i hi
    exact ⟨spec_attribute i b, b, hattr, hb, rfl, hcounts b hmem⟩
  · intro hpos i hi
    obtain ⟨b, -, hmem, hattr⟩ := hentry i hi
    exact ⟨spec_attribute i b, hattr, hpos b hmem, hcounts b hmem⟩

/-- Witness for C20 (amended): the layout of `make_cube`. -/
theorem C20_attribute_counts_witness :
    ∃ l, (vertex_layout_t.clear {}).add_all
        [⟨.float_, 3, false⟩, ⟨.float_, 2, false⟩, ⟨.float_, 4, false⟩] = .ok l ∧
      (∀ i, i < l.m_count → ∃ a b, l.m_attributes[i]? = some a ∧
        ([⟨.float_, 3, false⟩, ⟨.float_, 2, false⟩, ⟨.float_, 4, false⟩] : List add_args)[i]?
          = some b ∧
        a.count = b.count ∧ a.count ≤ 4) ∧
      ((∀ b ∈ ([⟨.float_, 3, false⟩, ⟨.float_, 2, false⟩, ⟨.float_, 4, false⟩] : List add_args),
          1 ≤ b.count) →
        ∀ i, i < l.m_count → ∃ a, l.m_attributes[i]? = some a ∧ 1 ≤ a.count ∧ a.count ≤ 4) :=
  C20_attribute_counts {} [⟨.float_, 3, false⟩, ⟨.float_, 2, false⟩, ⟨.float_, 4, false⟩]
    (by decide) (by decide) (by decide)


/-! ## Vertex layout: attribute description -/

theorem to_GLint_small (n : Nat) (h : n < 2 ^ 31) : to_GLint n = (n : Int) := by
  have h1 : n % 2 ^ 32 = n := Nat.mod_eq_of_lt (by omega)
  simp only [to_GLint, h1, if_pos h]

/-- The error check passes, issuing at most the query, when no error is
pending in a debug build. -/
theorem opengl_check_errors_ok (debug : Bool) (error : GLenum)
    (h : debug = true → error = GL_NO_ERROR) :
    ∃ check, opengl_check_errors debug error = .ok check ∧
      check.filter gl_call.is_glVertexAttribPointer = [] := by
  cases debug with
  | false => exact ⟨[], rfl, rfl⟩
  | true =>
    refine ⟨[.glGetError], ?_, rfl⟩
    simp [opengl_check_errors, h rfl]

/-- The attribute loop on a layout whose entries from `index` on are the
descriptors of `adds`: it returns, and its `glVertexAttribPointer` commands are
the descriptions the specification asks for. -/
theorem set_vertex_buffer_and_layout_loop_spec (layout : vertex_layout_t) (debug : Bool)
    (check_error : Nat → GLenum)
    (hcheck : debug = true → ∀ k, check_error k = GL_NO_ERROR)
    (hstride : layout.m_stride < 2 ^ 31) :
    ∀ (adds : List add_args) (index offset : Nat),
      (∀ a ∈ adds, a.count ≤ 4) →
      (∀ i a, adds[i]? = some a →
        layout.m_attributes[index + i]? = some (spec_attribute (index + i) a)) →
      ∃ calls,
        set_vertex_buffer_and_layout_loop layout debug check_error adds.length index offset
          = .ok calls ∧
        calls.filter gl_call.is_glVertexAttribPointer
          = spec_pointers layout.m_stride index offset adds := by
  intro adds
  induction adds with
  | nil => intro index offset _ _; exact ⟨[], rfl, rfl⟩
  | cons a rest ih =>
    intro index offset hcounts hattrs
    have hc : a.count ≤ 4 := hcounts a (List.mem_cons_self _ _)
    have hs := spec_element_size_le a.type
    have hprod : a.count * spec_element_size a.type ≤ 16 := by nlinarith
    have hhead : layout.m_attributes[index]? = some (spec_attribute index a) := by
      simpa using hattrs 0 a (by simp)
    obtain ⟨check, hchk, hchkf⟩ :=
      opengl_check_errors_ok debug (check_error (index + 1)) (fun h => hcheck h _)
    obtain ⟨calls, hloop, hcalls⟩ :=
      ih (index + 1) (offset + a.count * spec_element_size a.type)
        (fun b hb => hcounts b (List.mem_cons_of_mem _ hb))
        (fun i b hb => by
          have := hattrs (i + 1) b (by simpa using hb)
          have hidx : index + (i + 1) = index + 1 + i := by omega
          rwa [hidx] at this)
    have hmod : a.count * spec_element_size a.type % 2 ^ 32
        = a.count * spec_element_size a.type := Nat.mod_eq_of_lt (by omega)
    have hnorm : (if a.normalized = true then 1 else 0) % 256
        = (if a.normalized = true then 1 else 0 : Nat) := by
      cases a.normalized <;> rfl
    refine ⟨[.glEnableVertexAttribArray index,
             .glVertexAttribPointer index (to_GLint a.count) (spec_type_tag a.type)
               ((if a.normalized then 1 else 0) % 256) (to_GLint layout.m_stride) offset]
            ++ check ++ calls, ?_, ?_⟩
    · simp only [List.length_cons, set_vertex_buffer_and_layout_loop, hhead, hchk,
        spec_attribute, hmod, hloop]
    · simp [List.filter_append, hchkf, hcalls, gl_call.is_glVertexAttribPointer, spec_pointers,
        hnorm, to_GLint_small a.count (by omega), to_GLint_small layout.m_stride hstride]

/-- The description of the attribute that follows the attributes `pre` carries
the offset accumulated over `pre`. -/
theorem spec_pointers_getElem (stride : Nat) : ∀ (pre : List add_args) (a : add_args)
    (post : List add_args) (index offset : Nat),
    (spec_pointers stride index offset (pre ++ a :: post))[pre.length]?
      = some (.glVertexAttribPointer (index + pre.length) a.count (spec_type_tag a.type)
          (if a.normalized then 1 else 0) stride (offset + spec_stride pre)) := by
  intro pre
  induction pre with
  | nil => intro a post index offset; simp [spec_pointers, spec_stride]
  | cons b rest ih =>
    intro a post index offset
    have h := ih a post (index + 1) (offset + b.count * spec_element_size b.type)
    have hcons : spec_stride (b :: rest) = b.count * spec_element_size b.type + spec_stride rest := by
      simp [spec_stride]
    have h1 : index + (rest.length + 1) = index + 1 + rest.length := by omega
    have h2 : offset + (b.count * spec_element_size b.type + spec_stride rest)
        = offset + b.count * spec_element_size b.type + spec_stride rest := by omega
    simp only [List.cons_append, spec_pointers, List.length_cons, List.getElem?_cons_succ,
      hcons, h1, h2]
    exact h

theorem spec_pointers_length (stride : Nat) : ∀ (adds : List add_args) (index offset : Nat),
    (spec_pointers stride index offset adds).length = adds.length := by
  intro adds
  induction adds with
  | nil => intro _ _; rfl
  | cons a rest ih => intro index offset; simp [spec_pointers, ih]

theorem spec_stride_append (pre post : List add_args) :
    spec_stride (pre ++ post) = spec_stride pre + spec_stride post := by
  simp [spec_stride]

/-- C15: for every layout built by `clear()` followed by `add` calls that pass
the assertions of `add`, `set_vertex_buffer_and_layout` (in a release build, or
a debug build with no device error pending) returns and describes each
attribute exactly once, in order; the attribute at position `i` (the one after
the attributes `pre`) is described with its count, type and normalized flag, the
layout's `m_stride`, and byte offset the sum of `count_j * size_j` over the
attributes `j < i`.  The offsets agree with the stride: the offset of an
attribute plus its byte size is at most `m_stride`, with equality for the last
attribute. -/
theorem C15_attribute_offsets (r : renderer_t) (buffer : vertex_buffer_t)
    (l0 : vertex_layout_t) (debug : Bool) (check_error : Nat → GLenum)
    (adds pre post : List add_args) (a : add_args)
    (harray : l0.m_attributes.length = max_vertex_attributes)
    (hlen : adds.length ≤ 4) (hcounts : ∀ b ∈ adds, b.count ≤ 4)
    (hcheck : debug = true → ∀ k, check_error k = GL_NO_ERROR)
    (hsplit : adds = pre ++ a :: post) :
    ∃ l calls,
      l0.clear.add_all adds = .ok l ∧
      r.set_vertex_buffer_and_layout buffer l debug check_error = .ok (r, calls) ∧
      (calls.filter gl_call.is_glVertexAttribPointer).length = adds.length ∧
      (calls.filter gl_call.is_glVertexAttribPointer)[pre.length]?
        = some (.glVertexAttribPointer pre.length a.count (spec_type_tag a.type)
            (if a.normalized then 1 else 0) l.m_stride (spec_stride pre)) ∧
      l.m_stride = spec_stride adds ∧
      spec_stride pre + a.count * spec_element_size a.type ≤ l.m_stride ∧
      (post = [] → spec_stride pre + a.count * spec_element_size a.type = l.m_stride) := by
  obtain ⟨l, hall, hcount, hstride, -, -, hnew⟩ :=
    add_all_attributes adds l0.clear (by simpa [vertex_layout_t.clear] using hlen) hcounts
      (by simp [vertex_layout_t.clear]) (by simpa [vertex_layout_t.clear] using harray)
  have hcount' : l.m_count = adds.length := by simpa [vertex_layout_t.clear] using hcount
  have hstride' : l.m_stride = spec_stride adds := by
    simpa [vertex_layout_t.clear] using hstride
  have hbound : l.m_stride ≤ 64 := by
    obtain ⟨l', hall', -, hs'⟩ := add_all_ok adds l0.clear
      (by simpa [vertex_layout_t.clear] using hlen) hcounts (by simp [vertex_layout_t.clear])
    have hsum : ∀ xs : List add_args, (∀ b ∈ xs, b.count ≤ 4) →
        spec_stride xs ≤ 16 * xs.length := by
      intro xs
      induction xs with
      | nil => intro _; simp [spec_stride]
      | cons x rest ih =>
        intro hx
        have h1 := hx x (List.mem_cons_self _ _)
        have h2 := spec_element_size_le x.type
        have h3 := ih fun b hb => hx b (List.mem_cons_of_mem _ hb)
        have h4 : x.count * spec_element_size x.type ≤ 16 := by nlinarith
        simp only [spec_stride, List.map_cons, List.sum_cons, List.length_cons] at h3 ⊢
        omega
    have := hsum adds hcounts
    omega
  obtain ⟨check, hchk, hchkf⟩ :=
    opengl_check_errors_ok debug (check_error 0) (fun h => hcheck h _)
  obtain ⟨calls, hloop, hcalls⟩ :=
    set_vertex_buffer_and_layout_loop_spec l debug check_error hcheck (by omega) adds 0 0
      hcounts (fun i b hb => by simpa [vertex_layout_t.clear] using hnew i b hb)
  rw [← hcount'] at hloop
  have hfilter : (([gl_call.glBindBuffer GL_ARRAY_BUFFER buffer.m_id] ++ check ++ calls).filter
      gl_call.is_glVertexAttribPointer) = spec_pointers l.m_stride 0 0 adds := by
    simp [List.filter_append, hchkf, hcalls, gl_call.is_glVertexAttribPointer]
  have hsum : spec_stride adds
      = spec_stride pre + (a.count * spec_element_size a.type + spec_stride post) := by
    rw [hsplit, spec_stride_append]
    simp [spec_stride]
  refine ⟨l, [gl_call.glBindBuffer GL_ARRAY_BUFFER buffer.m_id] ++ check ++ calls, hall,
    ?_, ?_, ?_, hstride', ?_, ?_⟩
  · simp only [renderer_t.set_vertex_buffer_and_layout, hchk, hloop]
  · rw [hfilter, spec_pointers_length]
  · rw [hfilter, hsplit]
    simpa using spec_pointers_getElem l.m_stride pre a post 0 0
  · omega
  · intro hpost
    subst hpost
    have h0 : spec_stride ([] : List add_args) = 0 := rfl
    rw [h0] at hsum
    omega

/-- Witness for C15: the layout of `make_cube` and its second attribute
(2 floats at offset 12, stride 36), in a debug build. -/
theorem C15_attribute_offsets_witness :
    ∃ l calls,
      (vertex_layout_t.clear {}).add_all
          [⟨.float_, 3, false⟩, ⟨.float_, 2, false⟩, ⟨.float_, 4, false⟩] = .ok l ∧
      renderer_t.set_vertex_buffer_and_layout {} ⟨7⟩ l true (fun _ => GL_NO_ERROR)
        = .ok ({}, calls) ∧
      (calls.filter gl_call.is_glVertexAttribPointer).length = 3 ∧
      (calls.filter gl_call.is_glVertexAttribPointer)[1]?
        = some (.glVertexAttribPointer 1 2 GL_FLOAT 0 l.m_stride 12) ∧
      l.m_stride = 36 ∧
      12 + 2 * 4 ≤ l.m_stride ∧
      (([⟨.float_, 4, false⟩] : List add_args) = [] → 12 + 2 * 4 = l.m_stride) :=
  C15_attribute_offsets {} ⟨7⟩ {} true (fun _ => GL_NO_ERROR)
    [⟨.float_, 3, false⟩, ⟨.float_, 2, false⟩, ⟨.float_, 4, false⟩]
    [⟨.float_, 3, false⟩] [⟨.float_, 4, false⟩] ⟨.float_, 2, false⟩
    (by decide) (by decide) (by decide) (fun _ _ => rfl) rfl


/-! ## Sampler state -/

/-- C16: `sampler_state_t::create` sets the magnification filter to
`GL_NEAREST` when `filter == nearest` and to `GL_LINEAR` for every other filter
mode, the minification filter to the device constant of the requested filter
mode and the S/T wrap modes to the device constants of `address_u`/`address_v`
(clamp-edge, clamp-border, wrap -> repeat, mirror -> mirrored repeat); both
assignments of constants are one-to-one. -/
theorem C16_sampler_parameters :
    (∀ (s : sampler_state_t) (filter : filter_mode_t) (address_u address_v : address_mode_t)
        (sampler_state_id : Nat) (error : GLenum),
      s.create filter address_u address_v sampler_state_id error =
        .ok (if error ≠ GL_NO_ERROR then
              (false, s,
               [.glGenSamplers 1,
                .glSamplerParameteri sampler_state_id GL_TEXTURE_MIN_FILTER (spec_min_filter filter),
                .glSamplerParameteri sampler_state_id GL_TEXTURE_MAG_FILTER
                  (if filter = .nearest then GL_NEAREST else GL_LINEAR),
                .glSamplerParameteri sampler_state_id GL_TEXTURE_WRAP_S (spec_wrap address_u),
                .glSamplerParameteri sampler_state_id GL_TEXTURE_WRAP_T (spec_wrap address_v),
                .glGetError, .glDeleteSamplers 1 sampler_state_id, .debug_error])
            else
              (sampler_state_id != 0, ⟨sampler_state_id⟩,
               [.glGenSamplers 1,
                .glSamplerParameteri sampler_state_id GL_TEXTURE_MIN_FILTER (spec_min_filter filter),
                .glSamplerParameteri sampler_state_id GL_TEXTURE_MAG_FILTER
                  (if filter = .nearest then GL_NEAREST else GL_LINEAR),
                .glSamplerParameteri sampler_state_id GL_TEXTURE_WRAP_S (spec_wrap address_u),
                .glSamplerParameteri sampler_state_id GL_TEXTURE_WRAP_T (spec_wrap address_v),
                .glGetError]))) ∧
    Function.Injective spec_min_filter ∧ Function.Injective spec_wrap ∧
    GL_NEAREST ≠ GL_LINEAR := by
  refine ⟨?_, ?_, ?_, by decide⟩
  · intro s filter address_u address_v sampler_state_id error
    by_cases herr : error = GL_NO_ERROR
    · cases filter <;> cases address_u <;> cases address_v <;>
        simp [sampler_state_t.create, herr, gl_filter_modes, gl_address_modes,
          filter_mode_t.toNat, address_mode_t.toNat, spec_min_filter, spec_wrap,
          sampler_state_t.valid]
    · cases filter <;> cases address_u <;> cases address_v <;>
        simp [sampler_state_t.create, herr, gl_filter_modes, gl_address_modes,
          filter_mode_t.toNat, address_mode_t.toNat, spec_min_filter, spec_wrap]
  · intro a b h
    cases a <;> cases b <;> first | rfl | exact absurd h (by decide)
  · intro a b h
    cases a <;> cases b <;> first | rfl | exact absurd h (by decide)

/-! ## Renderer singleton -/

/-- Reachable process states: while the static is 0 no renderer is live, and
the number of live renderers grows only by a first construction and by
copies. -/
theorem process_run_invariant : ∀ (events : List renderer_event) (s s' : process_t) (n : Nat),
    (∀ id, renderer_event.construct id ∈ events → id ≠ 0) →
    (s.gl_vertex_array_object_id = 0 → s.live = 0) → s.live ≤ 1 + n →
    s.run events = .ok s' →
    (s'.gl_vertex_array_object_id = 0 → s'.live = 0) ∧
      s'.live ≤ 1 + n + (events.filter renderer_event.is_copy).length := by
  intro events
  induction events with
  | nil =>
    intro s s' n _ h0 h1 hrun
    simp only [process_t.run, Except.ok.injEq] at hrun
    subst hrun
    exact ⟨h0, by simpa using h1⟩
  | cons e rest ih =>
    intro s s' n hids h0 h1 hrun
    have hids' : ∀ id, renderer_event.construct id ∈ rest → id ≠ 0 :=
      fun id h => hids id (List.mem_cons_of_mem _ h)
    cases e with
    | construct id =>
      have hid : id ≠ 0 := hids id (List.mem_cons_self _ _)
      by_cases hg : s.gl_vertex_array_object_id = 0
      · have hstep : s.step (.construct id) = .ok ⟨id, s.live + 1⟩ := by
          simp [process_t.step, renderer_t.ctor, hg]
        simp only [process_t.run, hstep] at hrun
        have := ih ⟨id, s.live + 1⟩ s' n hids' (fun h => absurd h hid)
          (by simp only; have := h0 hg; omega) hrun
        simpa [renderer_event.is_copy] using this
      · have hstep : s.step (.construct id) = .error .assertion_failed := by
          simp [process_t.step, renderer_t.ctor, hg]
        simp [process_t.run, hstep] at hrun
    | copy =>
      by_cases hl : 0 < s.live
      · have hstep : s.step .copy = .ok ⟨s.gl_vertex_array_object_id, s.live + 1⟩ := by
          simp [process_t.step, hl]
        simp only [process_t.run, hstep] at hrun
        have := ih ⟨s.gl_vertex_array_object_id, s.live + 1⟩ s' (n + 1) hids'
          (fun h => by simp only at h ⊢; have := h0 h; omega) (by simp only; omega) hrun
        refine ⟨this.1, ?_⟩
        have h2 := this.2
        simp only [List.filter_cons, renderer_event.is_copy, if_true, List.length_cons]
        omega
      · have hstep : s.step .copy = .ok s := by
          simp [process_t.step, hl]
        simp only [process_t.run, hstep] at hrun
        have := ih s s' n hids' h0 h1 hrun
        refine ⟨this.1, ?_⟩
        have h2 := this.2
        simp only [List.filter_cons, renderer_event.is_copy, if_true, List.length_cons]
        omega
    | destruct =>
      have hstep : s.step .destruct = .ok ⟨s.gl_vertex_array_object_id, s.live - 1⟩ := by
        simp [process_t.step, renderer_t.dtor]
      simp only [process_t.run, hstep] at hrun
      have := ih ⟨s.gl_vertex_array_object_id, s.live - 1⟩ s' n hids'
        (fun h => by simp only at h ⊢; have := h0 h; omega) (by simp only; omega) hrun
      simpa [renderer_event.is_copy] using this

/-- A sequence of events that runs through holds at most one construction, and
none when the static is not 0 at its start. -/
theorem process_run_constructs : ∀ (events : List renderer_event) (s s' : process_t),
    (∀ id, renderer_event.construct id ∈ events → id ≠ 0) →
    s.run events = .ok s' →
    (events.filter renderer_event.is_construct).length
      ≤ (if s.gl_vertex_array_object_id = 0 then 1 else 0) := by
  intro events
  induction events with
  | nil => intro s s' _ _; simp
  | cons e rest ih =>
    intro s s' hids hrun
    have hids' : ∀ id, renderer_event.construct id ∈ rest → id ≠ 0 :=
      fun id h => hids id (List.mem_cons_of_mem _ h)
    cases e with
    | construct id =>
      have hid : id ≠ 0 := hids id (List.mem_cons_self _ _)
      by_cases hg : s.gl_vertex_array_object_id = 0
      · have hstep : s.step (.construct id) = .ok ⟨id, s.live + 1⟩ := by
          simp [process_t.step, renderer_t.ctor, hg]
        simp only [process_t.run, hstep] at hrun
        have := ih ⟨id, s.live + 1⟩ s' hids' hrun
        simp only [hid, if_false] at this
        simp only [List.filter_cons, renderer_event.is_construct, if_true, List.length_cons, hg]
        omega
      · have hstep : s.step (.construct id) = .error .assertion_failed := by
          simp [process_t.step, renderer_t.ctor, hg]
        simp [process_t.run, hstep] at hrun
    | copy =>
      have hstep : ∃ s1, s.step .copy = .ok s1 ∧
          s1.gl_vertex_array_object_id = s.gl_vertex_array_object_id := by
        by_cases hl : 0 < s.live
        · exact ⟨⟨s.gl_vertex_array_object_id, s.live + 1⟩, by simp [process_t.step, hl], rfl⟩
        · exact ⟨s, by simp [process_t.step, hl], rfl⟩
      obtain ⟨s1, hs1, hsame⟩ := hstep
      simp only [process_t.run, hs1] at hrun
      have := ih s1 s' hids' hrun
      rw [hsame] at this
      simpa [renderer_event.is_construct] using this
    | destruct =>
      have hstep : s.step .destruct = .ok ⟨s.gl_vertex_array_object_id, s.live - 1⟩ := by
        simp [process_t.step, renderer_t.dtor]
      simp only [process_t.run, hstep] at hrun
      have := ih ⟨s.gl_vertex_array_object_id, s.live - 1⟩ s' hids' hrun
      simpa [renderer_event.is_construct] using this

/-- C17 (as stated) fails: after one construction (device id 5) a copy of the
renderer through the implicit copy constructor runs without any assertion, and
two `renderer_t` instances are live. -/
theorem C17_counterexample :
    process_t.run {} [.construct 5, .copy] = .ok ⟨5, 2⟩ ∧
      ¬ ((⟨5, 2⟩ : process_t).live ≤ 1) := by
  refine ⟨by rfl, by decide⟩

/-- C17 (amended): in every state the process reaches from its start (static
0, no renderer) by constructions, for which the device returned non-zero
vertex-array ids, copies and destructions: when a renderer is live, the static
`gl_vertex_array_object_id` is not 0 and the assertion of the `renderer_t`
constructor fails, whatever id the device would hand out; so at most one
renderer has been constructed through `renderer_t()`, and the number of live
renderers is at most one more than the number of copies made (at most one when
no copy is made). -/
theorem C17_single_renderer (events : List renderer_event) (s : process_t)
    (hids : ∀ id, renderer_event.construct id ∈ events → id ≠ 0)
    (hrun : process_t.run {} events = .ok s)
    (hlive : 0 < s.live) :
    s.gl_vertex_array_object_id ≠ 0 ∧
      (∀ vertex_array_id,
        renderer_t.ctor s.gl_vertex_array_object_id vertex_array_id = .error .assertion_failed) ∧
      (∀ vertex_array_id, s.step (.construct vertex_array_id) = .error .assertion_failed) ∧
      (events.filter renderer_event.is_construct).length ≤ 1 ∧
      s.live ≤ 1 + (events.filter renderer_event.is_copy).length ∧
      (events.filter renderer_event.is_copy = [] → s.live ≤ 1) := by
  obtain ⟨h0, h1⟩ := process_run_invariant events {} s 0 hids (fun _ => rfl) (by decide) hrun
  have hc := process_run_constructs events {} s hids hrun
  have hg : s.gl_vertex_array_object_id ≠ 0 := fun h => by have := h0 h; omega
  refine ⟨hg, ?_, ?_, by simpa using hc, by simpa using h1, ?_⟩
  · intro vertex_array_id
    simp [renderer_t.ctor, hg]
  · intro vertex_array_id
    simp [process_t.step, renderer_t.ctor, hg]
  · intro hnone
    rw [hnone] at h1
    simpa using h1

/-- Witness for C17 (amended): one renderer constructed, the device returning
id 5, then copied once. -/
theorem C17_single_renderer_witness :
    (⟨5, 2⟩ : process_t).gl_vertex_array_object_id ≠ 0 ∧
      (∀ vertex_array_id,
        renderer_t.ctor (⟨5, 2⟩ : process_t).gl_vertex_array_object_id vertex_array_id
          = .error .assertion_failed) ∧
      (∀ vertex_array_id,
        (⟨5, 2⟩ : process_t).step (.construct vertex_array_id) = .error .assertion_failed) ∧
      ([renderer_event.construct 5, .copy].filter renderer_event.is_construct).length ≤ 1 ∧
      (⟨5, 2⟩ : process_t).live
        ≤ 1 + ([renderer_event.construct 5, .copy].filter renderer_event.is_copy).length ∧
      ([renderer_event.construct 5, .copy].filter renderer_event.is_copy = [] →
        (⟨5, 2⟩ : process_t).live ≤ 1) :=
  C17_single_renderer [.construct 5, .copy] ⟨5, 2⟩
    (by intro id h; simp at h; omega) rfl (by decide)


/-! ## `fnv1a32` against the standard definition -/

theorem fnv1a32_loop_eq_foldl : ∀ (bytes : List Nat) (result : Nat),
    (∀ b ∈ bytes, b < 256) →
    fnv1a32_loop result bytes
      = bytes.foldl (fun result byte => ((result ^^^ byte) * 16777619) % 2 ^ 32) result := by
  intro bytes
  induction bytes with
  | nil => intro _ _; rfl
  | cons b rest ih =>
    intro result hbytes
    have hb : b % 256 = b := Nat.mod_eq_of_lt (hbytes b (List.mem_cons_self _ _))
    simp only [fnv1a32_loop, List.foldl_cons, hb]
    exact ih _ fun c hc => hbytes c (List.mem_cons_of_mem _ hc)

theorem fnv1a32_loop_lt : ∀ (bytes : List Nat) (result : Nat),
    result < 2 ^ 32 → fnv1a32_loop result bytes < 2 ^ 32 := by
  intro bytes
  induction bytes with
  | nil => intro result h; exact h
  | cons b rest ih =>
    intro result _
    simp only [fnv1a32_loop]
    exact ih _ (Nat.mod_lt _ (by decide))

/-- C18: `fnv1a32` is a function of the byte sequence alone (equal sequences
give equal hashes) and is the standard 32-bit FNV-1a: from the offset basis
2166136261, for each byte in order, `result = ((result XOR byte) * 16777619)
mod 2^32`; the hash of the empty sequence is 2166136261, the published test
vectors for `a` and `foobar` are met, and every hash is a 32-bit value. -/
theorem C18_fnv1a32_standard (data data' : List Nat)
    (hbytes : ∀ b ∈ data, b < 256) (hsame : data = data') :
    fnv1a32 data data.length = fnv1a32 data' data'.length ∧
      fnv1a32 data data.length = spec_fnv1a32 data ∧
      (∀ size, fnv1a32 data size = spec_fnv1a32 (data.take size)) ∧
      fnv1a32 [] 0 = 2166136261 ∧
      fnv1a32 [97] 1 = 0xE40C292C ∧
      fnv1a32 [102, 111, 111, 98, 97, 114] 6 = 0xBF9CF968 ∧
      fnv1a32 data data.length < 2 ^ 32 := by
  subst hsame
  refine ⟨rfl, ?_, ?_, rfl, by decide, by decide, ?_⟩
  · simp only [fnv1a32, List.take_length, spec_fnv1a32]
    exact fnv1a32_loop_eq_foldl data _ hbytes
  · intro size
    simp only [fnv1a32, spec_fnv1a32]
    exact fnv1a32_loop_eq_foldl _ _ fun b hb => hbytes b (List.mem_of_mem_take hb)
  · simp only [fnv1a32]
    exact fnv1a32_loop_lt _ _ (by decide)

/-- Witness for C18: the name `u_color`. -/
theorem C18_fnv1a32_standard_witness :
    fnv1a32 u_color u_color.length = fnv1a32 [117, 95, 99, 111, 108, 111, 114] 7 ∧
      fnv1a32 u_color u_color.length = spec_fnv1a32 u_color ∧
      (∀ size, fnv1a32 u_color size = spec_fnv1a32 (u_color.take size)) ∧
      fnv1a32 [] 0 = 2166136261 ∧
      fnv1a32 [97] 1 = 0xE40C292C ∧
      fnv1a32 [102, 111, 111, 98, 97, 114] 6 = 0xBF9CF968 ∧
      fnv1a32 u_color u_color.length < 2 ^ 32 :=
  C18_fnv1a32_standard u_color [117, 95, 99, 111, 108, 111, 114] (by decide) rfl


/-! ## Pipeline state blocks -/

theorem gl_blend_factors_lookup (f : blend_factor_t) :
    gl_blend_factors[f.toNat]? = some (gl_blend_factors.getD f.toNat 0) := by
  cases f <;> rfl

theorem gl_blend_equations_lookup (e : blend_equation_t) :
    gl_blend_equations[e.toNat]? = some (gl_blend_equations.getD e.toNat 0) := by
  cases e <;> rfl

theorem gl_compare_funcs_lookup (f : compare_func_t) :
    gl_compare_funcs[f.toNat]? = some (gl_compare_funcs.getD f.toNat 0) := by
  cases f <;> rfl

theorem gl_cull_modes_lookup (m : cull_mode_t) :
    gl_cull_modes[m.toNat]? = some (gl_cull_modes.getD m.toNat 0) := by
  cases m <;> rfl

theorem gl_front_faces_lookup (f : front_face_t) :
    gl_front_faces[f.toNat]? = some (gl_front_faces.getD f.toNat 0) := by
  cases f <;> rfl

/-- C19 (as stated) fails: for a disabled blend state `set_blend_state` issues
only `glDisable(GL_BLEND)`, no equation and no factor; for a depth state with
`m_read == false` `set_depth_stencil_state` issues no compare function and no
write mask; for cull mode `none` `set_rasterizer_state` issues no cull face. -/
theorem C19_counterexample :
    renderer_t.set_blend_state {} { m_enabled := false } false GL_NO_ERROR
        = .ok ({}, [.glDisable GL_BLEND]) ∧
      renderer_t.set_depth_stencil_state {} { m_read := false } false GL_NO_ERROR
        = .ok ({}, [.glDisable GL_DEPTH_TEST, .glDepthRange 0 0x3F800000]) ∧
      renderer_t.set_rasterizer_state {} { m_cull_mode := .none } false GL_NO_ERROR
        = .ok ({}, [.glDisable GL_CULL_FACE, .glFrontFace GL_CW,
                    .glPolygonMode GL_FRONT_AND_BACK GL_FILL]) := by
  refine ⟨by rfl, by rfl, by rfl⟩

/-- C19 (amended): on every call (release build, or debug build with no
device error pending) the three setters return the renderer unchanged and issue
a command sequence that depends on the state argument alone, so nothing is
cached and a second call with the same state issues the same sequence again.
Blend: when enabled, `glEnable`, the four factors and both equations; when
disabled, only `glDisable`.  Depth: when `m_read`, `glEnable`, the compare
function and the write mask; otherwise only `glDisable`; then always the
near/far range.  Rasterizer: when the cull mode is not `none`, `glEnable` and
the cull face; otherwise only `glDisable`; then always the front-face winding
and the polygon mode. -/
theorem C19_state_blocks_pushed (r : renderer_t) (blend : blend_state_t)
    (depth : depth_stencil_state_t) (rasterizer : rasterizer_state_t)
    (debug : Bool) (check_error : GLenum)
    (hcheck : debug = true → check_error = GL_NO_ERROR) :
    r.set_blend_state blend debug check_error
      = .ok (r,
          (if blend.m_enabled then
            [.glEnable GL_BLEND,
             .glBlendFuncSeparate (gl_blend_factors.getD blend.m_color_src.toNat 0)
               (gl_blend_factors.getD blend.m_color_dest.toNat 0)
               (gl_blend_factors.getD blend.m_alpha_src.toNat 0)
               (gl_blend_factors.getD blend.m_alpha_dest.toNat 0),
             .glBlendEquationSeparate (gl_blend_equations.getD blend.m_color_eq.toNat 0)
               (gl_blend_equations.getD blend.m_alpha_eq.toNat 0)]
           else [.glDisable GL_BLEND])
          ++ (if debug then [.glGetError] else [])) ∧
    r.set_depth_stencil_state depth debug check_error
      = .ok (r,
          (if depth.m_read then
            [.glEnable GL_DEPTH_TEST,
             .glDepthFunc (gl_compare_funcs.getD depth.m_func.toNat 0),
             .glDepthMask (if depth.m_write then GL_TRUE else GL_FALSE)]
           else [.glDisable GL_DEPTH_TEST])
          ++ [.glDepthRange depth.m_znear depth.m_zfar]
          ++ (if debug then [.glGetError] else [])) ∧
    r.set_rasterizer_state rasterizer debug check_error
      = .ok (r,
          (if rasterizer.m_cull_mode ≠ .none then
            [.glEnable GL_CULL_FACE,
             .glCullFace (gl_cull_modes.getD rasterizer.m_cull_mode.toNat 0)]
           else [.glDisable GL_CULL_FACE])
          ++ [.glFrontFace (gl_front_faces.getD rasterizer.m_front_face.toNat 0),
              .glPolygonMode GL_FRONT_AND_BACK
                (if rasterizer.m_polygon_mode = .fill then GL_FILL else GL_LINE)]
          ++ (if debug then [.glGetError] else [])) := by
  have hchk : opengl_check_errors debug check_error
      = .ok (if debug then [.glGetError] else []) := by
    cases debug with
    | false => rfl
    | true => simp [opengl_check_errors, hcheck rfl]
  refine ⟨?_, ?_, ?_⟩
  · by_cases h : blend.m_enabled = true
    · simp only [renderer_t.set_blend_state, h, if_true, hchk, gl_blend_factors_lookup,
        gl_blend_equations_lookup]
    · simp only [renderer_t.set_blend_state, h, hchk]
      rfl
  · by_cases h : depth.m_read = true
    · by_cases hw : depth.m_write = true
      · simp only [renderer_t.set_depth_stencil_state, h, hw, if_true, hchk,
          gl_compare_funcs_lookup]
      · simp only [renderer_t.set_depth_stencil_state, h, hw, if_true, hchk,
          gl_compare_funcs_lookup]
        rfl
    · simp only [renderer_t.set_depth_stencil_state, h, hchk]
      rfl
  · by_cases h : rasterizer.m_cull_mode = .none
    · simp only [renderer_t.set_rasterizer_state, h, hchk, gl_front_faces_lookup]
      rfl
    · simp only [renderer_t.set_rasterizer_state, h, hchk, gl_front_faces_lookup,
        gl_cull_modes_lookup, ne_eq, not_false_eq_true, if_true]

/-- Witness for C19 (amended): the default state blocks, in a debug build with
no error pending. -/
theorem C19_state_blocks_pushed_witness :
    renderer_t.set_blend_state {} {} true GL_NO_ERROR
      = .ok ({},
          [.glEnable GL_BLEND,
           .glBlendFuncSeparate GL_SRC_ALPHA GL_ONE_MINUS_SRC_ALPHA GL_ONE GL_ONE,
           .glBlendEquationSeparate GL_FUNC_ADD GL_FUNC_ADD,
           .glGetError]) ∧
    renderer_t.set_depth_stencil_state {} {} true GL_NO_ERROR
      = .ok ({},
          [.glEnable GL_DEPTH_TEST, .glDepthFunc GL_LESS, .glDepthMask GL_TRUE,
           .glDepthRange 0 0x3F800000, .glGetError]) ∧
    renderer_t.set_rasterizer_state {} {} true GL_NO_ERROR
      = .ok ({},
          [.glEnable GL_CULL_FACE, .glCullFace GL_BACK, .glFrontFace GL_CW,
           .glPolygonMode GL_FRONT_AND_BACK GL_FILL, .glGetError]) :=
  C19_state_blocks_pushed {} {} {} {} true GL_NO_ERROR (fun _ => rfl)


/-! ## Uniform cache: idempotence and frame -/

theorem value_ptr_length (value : uniform_value) : value.value_ptr.length = value.sizeof := by
  cases value <;> rfl

/-- When the scan finds a slot of the asserted type whose cached hash is the
content hash of the value, the loop leaves the slot list as it is and issues
nothing. -/
theorem set_uniform_loop_cached (name_hash : Nat) (value : uniform_value) :
    ∀ (uniforms : List uniform_t) (u : uniform_t),
      find_slot name_hash uniforms = some u →
      u.m_value_type = value.gl_type →
      u.m_value_hash = fnv1a32 value.value_ptr value.sizeof →
      set_uniform_loop name_hash value uniforms = .ok (uniforms, []) := by
  intro uniforms
  induction uniforms with
  | nil => intro u hfind; simp [find_slot] at hfind
  | cons s rest ih =>
    intro u hfind hty hv
    by_cases hs : s.m_name_hash = name_hash
    · have hsu : s = u := by
        simpa [find_slot, List.find?_cons, hs] using hfind
      subst hsu
      simp [set_uniform_loop, hs, hty, hv]
    · have hrest : find_slot name_hash rest = some u := by
        simpa [find_slot, List.find?_cons, hs] using hfind
      simp [set_uniform_loop, hs, ih u hrest hty hv]

/-- C21: for every program state and every value (vec3, vec4 or mat4): one
call `set_uniform(name, v)` that finds a matching slot (of the value's type)
returns and leaves that slot's cached value hash equal to `fnv1a32` of the bytes
of `v` (all 12, 16 or 64 of them); an immediately repeated call issues no
device command and leaves the renderer, its program and the slot list
unchanged. -/
theorem C21_set_uniform_idempotent (r : renderer_t) (p : shader_program_t) (name : List Nat)
    (value : uniform_value) (u : uniform_t)
    (hp : r.m_program = some p)
    (hfind : find_slot (fnv1a32 name name.length) p.m_uniforms = some u)
    (hty : u.m_value_type = value.gl_type) :
    ∃ r1 p1 calls,
      r.set_uniform name value = .ok (r1, calls) ∧
      r1.m_program = some p1 ∧
      find_slot (fnv1a32 name name.length) p1.m_uniforms
        = some { u with m_value_hash := fnv1a32 value.value_ptr value.value_ptr.length } ∧
      (value.value_ptr.length = 12 ∨ value.value_ptr.length = 16 ∨
        value.value_ptr.length = 64) ∧
      r1.set_uniform name value = .ok (r1, []) := by
  obtain ⟨r1, p1, h1, hp1, hfind1⟩ := set_uniform_found r p name value u hp hfind hty
  have hloop := set_uniform_loop_cached (fnv1a32 name name.length) value p1.m_uniforms
    { u with m_value_hash := fnv1a32 value.value_ptr value.sizeof } hfind1 hty rfl
  refine ⟨r1, p1, _, h1, hp1, ?_, ?_, ?_⟩
  · rw [value_ptr_length]; exact hfind1
  · cases value <;> simp [uniform_value.value_ptr, vec3.value_ptr, vec4.value_ptr,
      mat4.value_ptr, float_bytes]
  · cases r1 with
    | mk m_program =>
      simp only at hp1
      subst hp1
      simp [renderer_t.set_uniform, hloop]

/-- Witness for C21: the program with the uniform `vec3 u_color` and the value
`(4.0f, 32.0f, 49.0f)`. -/
theorem C21_set_uniform_idempotent_witness :
    ∃ r1 p1 calls,
      renderer_t.set_uniform ⟨some u_color_program⟩ u_color (.v3 colliding_vec3_a)
        = .ok (r1, calls) ∧
      r1.m_program = some p1 ∧
      find_slot (fnv1a32 u_color u_color.length) p1.m_uniforms
        = some ⟨0, fnv1a32 u_color u_color.length, GL_FLOAT_VEC3,
            fnv1a32 colliding_vec3_a.value_ptr 12⟩ ∧
      ((uniform_value.v3 colliding_vec3_a).value_ptr.length = 12 ∨
        (uniform_value.v3 colliding_vec3_a).value_ptr.length = 16 ∨
        (uniform_value.v3 colliding_vec3_a).value_ptr.length = 64) ∧
      r1.set_uniform u_color (.v3 colliding_vec3_a) = .ok (r1, []) :=
  C21_set_uniform_idempotent ⟨some u_color_program⟩ u_color_program u_color
    (.v3 colliding_vec3_a) ⟨0, fnv1a32 u_color u_color.length, GL_FLOAT_VEC3, 0⟩
    rfl (by decide) rfl

/-- The scan in closed form: either no slot has the name hash and nothing
happens, or the slot list splits at the first slot that has it, and the loop
asserts its type, caches the content hash in it and uploads when the hash
changed. -/
theorem set_uniform_loop_cases (name_hash : Nat) (value : uniform_value) :
    ∀ uniforms : List uniform_t,
      ((∀ s ∈ uniforms, s.m_name_hash ≠ name_hash) ∧
        set_uniform_loop name_hash value uniforms = .ok (uniforms, [])) ∨
      ∃ pre u post,
        uniforms = pre ++ u :: post ∧ (∀ s ∈ pre, s.m_name_hash ≠ name_hash) ∧
        u.m_name_hash = name_hash ∧
        set_uniform_loop name_hash value uniforms =
          if u.m_value_type = value.gl_type then
            .ok (pre ++ { u with m_value_hash := fnv1a32 value.value_ptr value.sizeof } :: post,
                 if u.m_value_hash ≠ fnv1a32 value.value_ptr value.sizeof
                 then [value.upload u.m_location] else [])
          else .error .assertion_failed := by
  intro uniforms
  induction uniforms with
  | nil => exact Or.inl ⟨by simp, rfl⟩
  | cons s rest ih =>
    by_cases hs : s.m_name_hash = name_hash
    · refine Or.inr ⟨[], s, rest, rfl, by simp, hs, ?_⟩
      by_cases hty : s.m_value_type = value.gl_type
      · by_cases hv : s.m_value_hash = fnv1a32 value.value_ptr value.sizeof
        · have hsame : ({ s with m_value_hash := fnv1a32 value.value_ptr value.sizeof }
              : uniform_t) = s := by
            cases s; simp_all
          rw [List.nil_append, hsame]
          simp [set_uniform_loop, hs, hty, hv]
        · simp [set_uniform_loop, hs, hty, hv]
      · simp [set_uniform_loop, hs, hty]
    · rcases ih with ⟨hnone, hloop⟩ | ⟨pre, u, post, hsplit, hpre, hu, hloop⟩
      · refine Or.inl ⟨?_, ?_⟩
        · intro t ht
          rcases List.mem_cons.mp ht with h | h
          · exact h ▸ hs
          · exact hnone t h
        · simp [set_uniform_loop, hs, hloop]
      · refine Or.inr ⟨s :: pre, u, post, by simp [hsplit], ?_, hu, ?_⟩
        · intro t ht
          rcases List.mem_cons.mp ht with h | h
          · exact h ▸ hs
          · exact hpre t h
        · by_cases hty : u.m_value_type = value.gl_type
          · simp only [set_uniform_loop, hs, if_false, hloop, hty, if_true, List.cons_append]
          · simp only [set_uniform_loop, hs, if_false, hloop, hty]

/-- C22: `set_uniform(name, value)` on a renderer with an active program
either finds no slot with the name hash and changes nothing, or acts on the
first slot (in list order) with that hash: it fails the type assertion, or it
returns the same program handle and the same slots in the same order, with only
the `m_value_hash` of that first slot set to the content hash, and issues one
upload to that slot's location when the hash changed and no command otherwise.
In every returning case the number of slots, every location, name hash and
value type are as before and at most one upload is issued. -/
theorem C22_set_uniform_frame (r : renderer_t) (p : shader_program_t) (name : List Nat)
    (value : uniform_value)
    (hp : r.m_program = some p) :
    (((∀ s ∈ p.m_uniforms, s.m_name_hash ≠ fnv1a32 name name.length) ∧
        r.set_uniform name value = .ok (r, [])) ∨
      ∃ pre u post,
        p.m_uniforms = pre ++ u :: post ∧
        (∀ s ∈ pre, s.m_name_hash ≠ fnv1a32 name name.length) ∧
        u.m_name_hash = fnv1a32 name name.length ∧
        r.set_uniform name value =
          if u.m_value_type = value.gl_type then
            .ok (⟨some ⟨p.m_id,
                    pre ++ { u with m_value_hash := fnv1a32 value.value_ptr value.sizeof }
                      :: post⟩⟩,
                 if u.m_value_hash ≠ fnv1a32 value.value_ptr value.sizeof
                 then [value.upload u.m_location] else [])
          else .error .assertion_failed) ∧
    ∀ r' calls, r.set_uniform name value = .ok (r', calls) →
      upload_count calls ≤ 1 ∧ calls.length ≤ 1 ∧
      ∃ p', r'.m_program = some p' ∧ p'.m_id = p.m_id ∧
        p'.m_uniforms.length = p.m_uniforms.length ∧
        (p'.m_uniforms.map fun s => (s.m_location, s.m_name_hash, s.m_value_type))
          = p.m_uniforms.map fun s => (s.m_location, s.m_name_hash, s.m_value_type) := by
  have hset : ∀ res, set_uniform_loop (fnv1a32 name name.length) value p.m_uniforms = res →
      r.set_uniform name value =
        match res with
        | .error e => .error e
        | .ok (uniforms, calls) => .ok (⟨some ⟨p.m_id, uniforms⟩⟩, calls) := by
    intro res hres
    cases r with
    | mk m_program =>
      simp only at hp
      subst hp
      simp only [renderer_t.set_uniform, hres]
  have hr : r = ⟨some ⟨p.m_id, p.m_uniforms⟩⟩ := by
    cases r with
    | mk m_program => simp only at hp; subst hp; rfl
  rcases set_uniform_loop_cases (fnv1a32 name name.length) value p.m_uniforms with
    ⟨hnone, hloop⟩ | ⟨pre, u, post, hsplit, hpre, hu, hloop⟩
  · have hres : r.set_uniform name value = .ok (r, []) := by
      rw [hset _ hloop]; simp only; rw [← hr]
    refine ⟨Or.inl ⟨hnone, hres⟩, ?_⟩
    intro r' calls hok
    rw [hres] at hok
    simp only [Except.ok.injEq, Prod.mk.injEq] at hok
    obtain ⟨hr', hcalls⟩ := hok
    subst hr' hcalls
    exact ⟨by decide, by decide, p, hp, rfl, rfl, rfl⟩
  · by_cases hty : u.m_value_type = value.gl_type
    · rw [if_pos hty] at hloop
      have hres := hset _ hloop
      simp only at hres
      refine ⟨Or.inr ⟨pre, u, post, hsplit, hpre, hu, by rw [if_pos hty]; exact hres⟩, ?_⟩
      intro r' calls hok
      rw [hres] at hok
      simp only [Except.ok.injEq, Prod.mk.injEq] at hok
      obtain ⟨hr', hcalls⟩ := hok
      subst hr' hcalls
      refine ⟨?_, ?_, _, rfl, rfl, ?_, ?_⟩
      · split
        · exact le_of_eq (upload_count_upload value u.m_location)
        · decide
      · split <;> simp
      · simp [hsplit]
      · simp [hsplit]
    · rw [if_neg hty] at hloop
      have hres := hset _ hloop
      simp only at hres
      refine ⟨Or.inr ⟨pre, u, post, hsplit, hpre, hu, by rw [if_neg hty]; exact hres⟩, ?_⟩
      intro r' calls hok
      rw [hres] at hok
      cases hok

/-- Witness for C22: the program with the two slots of `costarring` and
`liquid` (equal name hashes) and the value `(4.0f, 32.0f, 49.0f)` set under the
name `liquid`: only the first slot's cached hash changes. -/
theorem C22_set_uniform_frame_witness :
    (((∀ s ∈ colliding_names_program.m_uniforms, s.m_name_hash ≠ fnv1a32 liquid liquid.length) ∧
        renderer_t.set_uniform ⟨some colliding_names_program⟩ liquid (.v3 colliding_vec3_a)
          = .ok (⟨some colliding_names_program⟩, [])) ∨
      ∃ pre u post,
        colliding_names_program.m_uniforms = pre ++ u :: post ∧
        (∀ s ∈ pre, s.m_name_hash ≠ fnv1a32 liquid liquid.length) ∧
        u.m_name_hash = fnv1a32 liquid liquid.length ∧
        renderer_t.set_uniform ⟨some colliding_names_program⟩ liquid (.v3 colliding_vec3_a) =
          if u.m_value_type = GL_FLOAT_VEC3 then
            .ok (⟨some ⟨colliding_names_program.m_id,
                    pre ++ { u with m_value_hash := fnv1a32 colliding_vec3_a.value_ptr 12 }
                      :: post⟩⟩,
                 if u.m_value_hash ≠ fnv1a32 colliding_vec3_a.value_ptr 12
                 then [.glUniform3fv u.m_location 1 colliding_vec3_a.value_ptr] else [])
          else .error .assertion_failed) ∧
    ∀ r' calls,
      renderer_t.set_uniform ⟨some colliding_names_program⟩ liquid (.v3 colliding_vec3_a)
        = .ok (r', calls) →
      upload_count calls ≤ 1 ∧ calls.length ≤ 1 ∧
      ∃ p', r'.m_program = some p' ∧ p'.m_id = colliding_names_program.m_id ∧
        p'.m_uniforms.length = colliding_names_program.m_uniforms.length ∧
        (p'.m_uniforms.map fun s => (s.m_location, s.m_name_hash, s.m_value_type))
          = colliding_names_program.m_uniforms.map
              fun s => (s.m_location, s.m_name_hash, s.m_value_type) :=
  C22_set_uniform_frame ⟨some colliding_names_program⟩ colliding_names_program liquid
    (.v3 colliding_vec3_a) rfl


/-! ## Vertex layout invariant -/

/-- A chain of `add` calls on a layout with at most 4 attributes returns only
if every call passed both assertions: the layout had room for all of them and
every count was at most 4. -/
theorem add_all_ok_preconditions : ∀ (adds : List add_args) (l l' : vertex_layout_t),
    l.m_count ≤ 4 → l.add_all adds = .ok l' →
    l.m_count + adds.length ≤ 4 ∧ ∀ a ∈ adds, a.count ≤ 4 := by
  intro adds
  induction adds with
  | nil =>
    intro l l' hle _
    exact ⟨by simpa using hle, by simp⟩
  | cons a rest ih =>
    intro l l' _ hrun
    have hadd := add_eq l a.type a.count a.normalized
    by_cases hcond : 4 ≤ l.m_count ∨ 4 < a.count
    · rw [if_pos hcond] at hadd
      simp [vertex_layout_t.add_all, hadd] at hrun
    · rw [if_neg hcond] at hadd
      simp only [vertex_layout_t.add_all, hadd] at hrun
      obtain ⟨hlen, hcounts⟩ := ih _ l' (by simp only; omega) hrun
      simp only at hlen
      refine ⟨by simp only [List.length_cons]; omega, ?_⟩
      intro b hb
      rcases List.mem_cons.mp hb with h | h
      · subst h; omega
      · exact hcounts b h

theorem spec_stride_le : ∀ adds : List add_args, (∀ a ∈ adds, a.count ≤ 4) →
    spec_stride adds ≤ 16 * adds.length := by
  intro adds
  induction adds with
  | nil => intro _; simp [spec_stride]
  | cons a rest ih =>
    intro h
    have h1 := h a (List.mem_cons_self _ _)
    have h2 := spec_element_size_le a.type
    have h3 := ih fun b hb => h b (List.mem_cons_of_mem _ hb)
    have h4 : a.count * spec_element_size a.type ≤ 16 := by nlinarith
    simp only [spec_stride, List.map_cons, List.sum_cons, List.length_cons] at h3 ⊢
    omega

/-- C23: a default-constructed layout and a cleared layout have `m_count = 0`
and `m_stride = 0` (`clear()` resets both from any state).  Every layout reached
from such a layout (with its 4-entry attribute array) by `add` calls that pass
the assertions of `add` has `m_count <= 4` and `m_stride <= 64`, and for every
`i < m_count` attribute `i` has `index == i` and carries either the float tag
with size 4 or the unsigned-byte tag with size 1. -/
theorem C23_layout_invariant (l l' : vertex_layout_t) (adds : List add_args)
    (hstart : l.m_count = 0 ∧ l.m_stride = 0)
    (harray : l.m_attributes.length = max_vertex_attributes)
    (hrun : l.add_all adds = .ok l') :
    l'.m_count ≤ 4 ∧ l'.m_stride ≤ 64 ∧ l'.m_stride < 2 ^ 32 ∧
      (∀ i, i < l'.m_count → ∃ a, l'.m_attributes[i]? = some a ∧ a.index = i ∧
        ((a.type = GL_FLOAT ∧ a.size = 4) ∨ (a.type = GL_UNSIGNED_BYTE ∧ a.size = 1))) ∧
      (({} : vertex_layout_t).m_count = 0 ∧ ({} : vertex_layout_t).m_stride = 0 ∧
        ({} : vertex_layout_t).m_attributes.length = max_vertex_attributes) ∧
      (∀ l0 : vertex_layout_t, l0.clear.m_count = 0 ∧ l0.clear.m_stride = 0 ∧
        l0.clear.m_attributes = l0.m_attributes) := by
  obtain ⟨hcount0, hstride0⟩ := hstart
  obtain ⟨hlen, hcounts⟩ := add_all_ok_preconditions adds l l' (by omega) hrun
  obtain ⟨l2, hall, hcount, hstride, -, -, hnew⟩ :=
    add_all_attributes adds l hlen hcounts (by omega) harray
  have hl : l2 = l' := by
    rw [hall] at hrun
    injection hrun
  subst hl
  have hsum := spec_stride_le adds hcounts
  refine ⟨by omega, by omega, by omega, ?_, ⟨rfl, rfl, rfl⟩, fun l0 => ⟨rfl, rfl, rfl⟩⟩
  intro i hi
  have hi' : i < adds.length := by omega
  have hattr := hnew i adds[i] (List.getElem?_eq_getElem hi')
  rw [hcount0, Nat.zero_add] at hattr
  refine ⟨spec_attribute i adds[i], hattr, rfl, ?_⟩
  cases hty : adds[i].type
  · exact Or.inl ⟨by simp [spec_attribute, spec_type_tag, hty],
      by simp [spec_attribute, spec_element_size, hty]⟩
  · exact Or.inr ⟨by simp [spec_attribute, spec_type_tag, hty],
      by simp [spec_attribute, spec_element_size, hty]⟩

/-- Witness for C23: a layout that held other data, cleared, then given the
attributes of `make_cube` followed by four normalized unsigned bytes. -/
theorem C23_layout_invariant_witness :
    (⟨40, 4, [⟨0, GL_FLOAT, 4, 3, 0⟩, ⟨1, GL_FLOAT, 4, 2, 0⟩, ⟨2, GL_FLOAT, 4, 4, 0⟩,
               ⟨3, GL_UNSIGNED_BYTE, 1, 4, 1⟩]⟩ : vertex_layout_t).m_count ≤ 4 ∧
      (⟨40, 4, [⟨0, GL_FLOAT, 4, 3, 0⟩, ⟨1, GL_FLOAT, 4, 2, 0⟩, ⟨2, GL_FLOAT, 4, 4, 0⟩,
                 ⟨3, GL_UNSIGNED_BYTE, 1, 4, 1⟩]⟩ : vertex_layout_t).m_stride ≤ 64 ∧
      (⟨40, 4, [⟨0, GL_FLOAT, 4, 3, 0⟩, ⟨1, GL_FLOAT, 4, 2, 0⟩, ⟨2, GL_FLOAT, 4, 4, 0⟩,
                 ⟨3, GL_UNSIGNED_BYTE, 1, 4, 1⟩]⟩ : vertex_layout_t).m_stride < 2 ^ 32 ∧
      (∀ i, i < (⟨40, 4, [⟨0, GL_FLOAT, 4, 3, 0⟩, ⟨1, GL_FLOAT, 4, 2, 0⟩, ⟨2, GL_FLOAT, 4, 4, 0⟩,
                 ⟨3, GL_UNSIGNED_BYTE, 1, 4, 1⟩]⟩ : vertex_layout_t).m_count →
        ∃ a, (⟨40, 4, [⟨0, GL_FLOAT, 4, 3, 0⟩, ⟨1, GL_FLOAT, 4, 2, 0⟩, ⟨2, GL_FLOAT, 4, 4, 0⟩,
                 ⟨3, GL_UNSIGNED_BYTE, 1, 4, 1⟩]⟩ : vertex_layout_t).m_attributes[i]? = some a ∧
          a.index = i ∧
          ((a.type = GL_FLOAT ∧ a.size = 4) ∨ (a.type = GL_UNSIGNED_BYTE ∧ a.size = 1))) ∧
      (({} : vertex_layout_t).m_count = 0 ∧ ({} : vertex_layout_t).m_stride = 0 ∧
        ({} : vertex_layout_t).m_attributes.length = max_vertex_attributes) ∧
      (∀ l0 : vertex_layout_t, l0.clear.m_count = 0 ∧ l0.clear.m_stride = 0 ∧
        l0.clear.m_attributes = l0.m_attributes) :=
  C23_layout_invariant (vertex_layout_t.clear { m_stride := 99, m_count := 3 }) _
    [⟨.float_, 3, false⟩, ⟨.float_, 2, false⟩, ⟨.float_, 4, false⟩, ⟨.ubyte, 4, true⟩]
    ⟨rfl, rfl⟩ rfl rfl


/-! ## Renderer singleton guard over the process lifetime -/

/-- Once the static is not 0, a sequence of events that runs through holds no
construction and leaves the static as it was. -/
theorem process_run_static : ∀ (events : List renderer_event) (s s' : process_t),
    s.gl_vertex_array_object_id ≠ 0 → s.run events = .ok s' →
    s'.gl_vertex_array_object_id = s.gl_vertex_array_object_id ∧
      ∀ e ∈ events, ∀ id, e ≠ .construct id := by
  intro events
  induction events with
  | nil =>
    intro s s' _ hrun
    simp only [process_t.run, Except.ok.injEq] at hrun
    subst hrun
    exact ⟨rfl, by simp⟩
  | cons e rest ih =>
    intro s s' hg hrun
    cases e with
    | construct id =>
      have hstep : s.step (.construct id) = .error .assertion_failed := by
        simp [process_t.step, renderer_t.ctor, hg]
      simp [process_t.run, hstep] at hrun
    | copy =>
      have hstep : ∃ s1, s.step .copy = .ok s1 ∧
          s1.gl_vertex_array_object_id = s.gl_vertex_array_object_id := by
        by_cases hl : 0 < s.live
        · exact ⟨⟨s.gl_vertex_array_object_id, s.live + 1⟩, by simp [process_t.step, hl], rfl⟩
        · exact ⟨s, by simp [process_t.step, hl], rfl⟩
      obtain ⟨s1, hs1, hsame1⟩ := hstep
      simp only [process_t.run, hs1] at hrun
      obtain ⟨hsame, hall⟩ := ih s1 s' (by rw [hsame1]; exact hg) hrun
      refine ⟨by rw [hsame, hsame1], ?_⟩
      intro e he
      rcases List.mem_cons.mp he with h | h
      · intro id; rw [h]; exact fun hc => by cases hc
      · exact hall e h
    | destruct =>
      have hstep : s.step .destruct = .ok ⟨s.gl_vertex_array_object_id, s.live - 1⟩ := by
        simp [process_t.step, renderer_t.dtor]
      simp only [process_t.run, hstep] at hrun
      obtain ⟨hsame, hall⟩ := ih ⟨s.gl_vertex_array_object_id, s.live - 1⟩ s' hg hrun
      refine ⟨hsame, ?_⟩
      intro e he
      rcases List.mem_cons.mp he with h | h
      · intro id; rw [h]; exact fun hc => by cases hc
      · exact hall e h

/-- Running a sequence of events followed by another. -/
theorem process_run_append : ∀ (xs ys : List renderer_event) (s : process_t),
    s.run (xs ++ ys) =
      match s.run xs with
      | .error f => .error f
      | .ok s' => s'.run ys := by
  intro xs
  induction xs with
  | nil => intro ys s; rfl
  | cons x rest ih =>
    intro ys s
    cases hstep : s.step x with
    | error f => simp [process_t.run, hstep]
    | ok s1 => simp [process_t.run, hstep, ih ys s1]

/-- C24: the destructor issues `glDeleteVertexArrays` and leaves the static
`gl_vertex_array_object_id` as it is.  So once a renderer has been constructed
(the device returned a non-zero id), in every state the process reaches
afterwards (by copies and destructions; no construction goes through) the
static still holds that id, also when the renderer has been destroyed and none
is live; the constructor's assertion fails there, and any run of the process
that constructs a renderer again stops at an assertion failure. -/
theorem C24_guard_never_reset (id : Nat) (events : List renderer_event) (s : process_t)
    (hid : id ≠ 0)
    (hrun : process_t.run {} (.construct id :: events) = .ok s) :
    (∀ g, renderer_t.dtor g = (g, [.glDeleteVertexArrays 1 g])) ∧
      process_t.run {} [.construct id, .destruct] = .ok ⟨id, 0⟩ ∧
      s.gl_vertex_array_object_id = id ∧
      (∀ e ∈ events, ∀ id', e ≠ .construct id') ∧
      (∀ vertex_array_id,
        renderer_t.ctor s.gl_vertex_array_object_id vertex_array_id
          = .error .assertion_failed) ∧
      (∀ vertex_array_id later,
        process_t.run {} (.construct id :: events ++ .construct vertex_array_id :: later)
          = .error .assertion_failed) := by
  have hfirst : process_t.step {} (.construct id) = .ok ⟨id, 1⟩ := by
    simp [process_t.step, renderer_t.ctor]
  have hrun' : process_t.run ⟨id, 1⟩ events = .ok s := by
    simpa [process_t.run, hfirst] using hrun
  obtain ⟨hsame, hall⟩ := process_run_static events ⟨id, 1⟩ s hid hrun'
  simp only at hsame
  have hg : s.gl_vertex_array_object_id ≠ 0 := by rw [hsame]; exact hid
  refine ⟨fun g => rfl, ?_, hsame, hall, ?_, ?_⟩
  · simp [process_t.run, process_t.step, renderer_t.ctor, renderer_t.dtor]
  · intro vertex_array_id
    simp [renderer_t.ctor, hg]
  · intro vertex_array_id later
    have hstep : s.step (.construct vertex_array_id) = .error .assertion_failed := by
      simp [process_t.step, renderer_t.ctor, hg]
    have happ : (renderer_event.construct id :: events ++ .construct vertex_array_id :: later)
        = (.construct id :: events) ++ (.construct vertex_array_id :: later) := by simp
    rw [happ, process_run_append, hrun]
    simp [process_t.run, hstep]

/-- Witness for C24: a renderer constructed with device id 5 and destroyed. -/
theorem C24_guard_never_reset_witness :
    (∀ g, renderer_t.dtor g = (g, [.glDeleteVertexArrays 1 g])) ∧
      process_t.run {} [.construct 5, .destruct] = .ok ⟨5, 0⟩ ∧
      (⟨5, 0⟩ : process_t).gl_vertex_array_object_id = 5 ∧
      (∀ e ∈ [renderer_event.destruct], ∀ id', e ≠ .construct id') ∧
      (∀ vertex_array_id,
        renderer_t.ctor (⟨5, 0⟩ : process_t).gl_vertex_array_object_id vertex_array_id
          = .error .assertion_failed) ∧
      (∀ vertex_array_id later,
        process_t.run {} (.construct 5 :: [.destruct] ++ .construct vertex_array_id :: later)
          = .error .assertion_failed) :=
  C24_guard_never_reset 5 [.destruct] ⟨5, 0⟩ (by decide) rfl

end kiwi
